import Mathlib

/-!
Windows exception handling of the Go runtime (`src/runtime/signal_windows.go`).

A shallow embedding of the exception classifier, the three vectored handlers,
the crash reporter `winthrow`, the panic dispatcher `sigpanic` and
`setBadSignalMsg`, followed by theorems about them.

Pointers (`*exceptionrecord`, `*context`, `*g`, `*m`) are natural numbers that
index one heap per type; `0` is `nil`.  `uintptr` values are natural numbers,
reduced modulo `2 ^ (8 * PtrSize)` wherever the source does arithmetic on them.
Functions that end the process (`exit`) or never come back are modelled by the
`Outcome` type, and sequencing goes through `Outcome.bind`, so code placed after
a call that does not return is not executed.
-/

namespace SignalWindows

/-! ## Data model -/

/-- Modelled from the spec: the type `exceptionrecord` is declared outside this
file; the handlers read its exception code and its exception-specific
parameters (`exceptioninformation[0]`, `exceptioninformation[1]`). -/
structure ExceptionRecord where
  exceptioncode : Nat
  exceptioninformation : Nat → Nat

/-- Modelled from the spec: the type `context` and its accessors `ip`, `sp`,
`lr`, `set_ip`, `set_sp`, `set_lr` are declared per architecture outside this
file; a context is a snapshot of the instruction pointer, the stack pointer,
the link register and the remaining registers. -/
structure Context where
  ipReg : Nat
  spReg : Nat
  lrReg : Nat
  regs : List Nat
deriving DecidableEq, Repr

/-- The accessor `r.ip()`. -/
def Context.ip (r : Context) : Nat := r.ipReg

/-- The accessor `r.sp()`. -/
def Context.sp (r : Context) : Nat := r.spReg

/-- The accessor `r.lr()`. -/
def Context.lr (r : Context) : Nat := r.lrReg

/-- The mutator `r.set_ip(x)`. -/
def Context.set_ip (r : Context) (x : Nat) : Context := { r with ipReg := x }

/-- The mutator `r.set_sp(x)`. -/
def Context.set_sp (r : Context) (x : Nat) : Context := { r with spReg := x }

/-- The mutator `r.set_lr(x)`. -/
def Context.set_lr (r : Context) (x : Nat) : Context := { r with lrReg := x }

/-- The stack bounds of a task (`g.stack`). -/
structure Stack where
  lo : Nat
  hi : Nat
deriving DecidableEq, Repr

/-- Modelled from the spec: the type `g` is declared outside this file; these
are the fields this file reads or writes: stack bounds and the two stack
guards, the owning `m`, the flags `throwsplit` and `paniconfault`, and the
signal-transfer record `sig`, `sigcode0`, `sigcode1`, `sigpc`. -/
structure G where
  stack : Stack
  stackguard0 : Nat
  stackguard1 : Nat
  m : Nat
  throwsplit : Bool
  paniconfault : Bool
  sig : Nat
  sigcode0 : Nat
  sigcode1 : Nat
  sigpc : Nat
deriving DecidableEq, Repr

/-- Modelled from the spec: the type `m` is declared outside this file; these
are the fields `winthrow` reads or writes. -/
structure M where
  g0 : Nat
  curg : Nat
  incgo : Bool
  throwing : Nat
  caughtsig : Nat
deriving DecidableEq, Repr

/-- What the process prints: the arguments of `print` in order, and one entry
for each call of the traceback printer, which is a black box here. -/
inductive Ev where
  | str : String → Ev
  | hex : Nat → Ev
  | tracebacktrap : Nat → Nat → Nat → Nat → Ev
  | tracebackothers : Nat → Ev
  | dumpregs : Context → Ev
deriving DecidableEq, Repr

/-- The mutable state of the process that this file touches. -/
structure State where
  infos : Nat → ExceptionRecord
  ctxs : Nat → Context
  gs : Nat → G
  ms : Nat → M
  mem : Nat → Nat
  getg : Nat
  panicking : Nat
  testingWER : Bool
  badsignalmsg : List Nat
  badsignallen : Int
  out : List Ev

/-- The fields `text` and `etext` of `firstmoduledata`. -/
structure Moduledata where
  text : Nat
  etext : Nat
deriving DecidableEq, Repr

/-- Everything the file uses that is declared elsewhere in the runtime and is
fixed for a run: build constants, the exception codes, entry addresses, and
the helper functions `isAbortPC`, `canpanic` and `gotraceback`. -/
structure Env where
  GOARCH : String
  PtrSize : Nat
  StackAlign : Nat
  usesLR : Bool
  firstmoduledata : Moduledata
  islibrary : Bool
  isarchive : Bool
  iscgo : Bool
  _EXCEPTION_ACCESS_VIOLATION : Nat
  _EXCEPTION_BREAKPOINT : Nat
  _EXCEPTION_ILLEGAL_INSTRUCTION : Nat
  _EXCEPTION_FLT_DENORMAL_OPERAND : Nat
  _EXCEPTION_FLT_DIVIDE_BY_ZERO : Nat
  _EXCEPTION_FLT_INEXACT_RESULT : Nat
  _EXCEPTION_FLT_OVERFLOW : Nat
  _EXCEPTION_FLT_UNDERFLOW : Nat
  _EXCEPTION_INT_DIVIDE_BY_ZERO : Nat
  _EXCEPTION_INT_OVERFLOW : Nat
  _EXCEPTION_CONTINUE_EXECUTION : Int
  _EXCEPTION_CONTINUE_SEARCH : Int
  _StackGuard : Nat
  throwTypeRuntime : Nat
  asyncPreempt : Nat
  sigpanic0 : Nat
  isAbortPC : Nat → Bool
  canpanic : State → Bool
  gotraceback : State → Int × Bool × Bool

/-- The number of values of `uintptr`. -/
def Env.wordMod (env : Env) : Nat := 2 ^ (8 * env.PtrSize)

/-- The conversion `uintptr(x)`. -/
def Env.uintptr (env : Env) (x : Nat) : Nat := x % env.wordMod

/-- Unary minus on `uintptr`. -/
def Env.neg (env : Env) (x : Nat) : Nat := (env.wordMod - x % env.wordMod) % env.wordMod

/-- The helper `add(p, x)`: pointer plus offset, as `uintptr` arithmetic. -/
def Env.add (env : Env) (p x : Nat) : Nat := (p + x) % env.wordMod

/-- How a call ends: it returns a value, or the process has exited. -/
inductive Outcome (α : Type) where
  | ret : α → State → Outcome α
  | exited : Int → State → Outcome α

/-- Sequencing: what follows a call runs only if the call returned. -/
def Outcome.bind {α β : Type} (o : Outcome α) (f : α → State → Outcome β) : Outcome β :=
  match o with
  | Outcome.ret a s => f a s
  | Outcome.exited c s => Outcome.exited c s

/-- The state in which a call ended. -/
def Outcome.state {α : Type} : Outcome α → State
  | Outcome.ret _ s => s
  | Outcome.exited _ s => s

/-- The value a call returned, if it returned. -/
def Outcome.value {α : Type} : Outcome α → Option α
  | Outcome.ret a _ => some a
  | Outcome.exited _ _ => none

/-- The exit status, if the process exited. -/
def Outcome.status {α : Type} : Outcome α → Option Int
  | Outcome.ret _ _ => none
  | Outcome.exited c _ => some c

/-- The process-exit primitive `exit(code)`: it does not return. -/
def exit {α : Type} (code : Int) (s : State) : Outcome α := Outcome.exited code s

/-- The statement `print(...)`. -/
def print (evs : List Ev) (s : State) : State := { s with out := s.out ++ evs }

/-- A write through a `*g`. -/
def State.setG (s : State) (gp : Nat) (f : G → G) : State :=
  { s with gs := Function.update s.gs gp (f (s.gs gp)) }

/-- A write through a `*m`. -/
def State.setM (s : State) (mp : Nat) (f : M → M) : State :=
  { s with ms := Function.update s.ms mp (f (s.ms mp)) }

/-- A write through a `*context`. -/
def State.setCtx (s : State) (r : Nat) (f : Context → Context) : State :=
  { s with ctxs := Function.update s.ctxs r (f (s.ctxs r)) }

/-- The store `*((*uintptr)(p)) = v`. -/
def State.store (s : State) (p v : Nat) : State :=
  { s with mem := Function.update s.mem p v }

/-! ## The functions of `signal_windows.go` -/

/-- The function `isAbort` (lines 47-56). -/
def isAbort (env : Env) (r : Nat) (s : State) : Bool :=
  let pc := (s.ctxs r).ip
  let pc := if env.GOARCH == "386" || env.GOARCH == "amd64" || env.GOARCH == "arm" then
      (pc + env.wordMod - 1) % env.wordMod
    else pc
  env.isAbortPC pc

/-- The function `isgoexception` (lines 65-89). -/
def isgoexception (env : Env) (info r : Nat) (s : State) : Bool :=
  if (s.ctxs r).ip < env.firstmoduledata.text || env.firstmoduledata.etext < (s.ctxs r).ip then
    false
  else
    let code := (s.infos info).exceptioncode
    if code = env._EXCEPTION_ACCESS_VIOLATION then true
    else if code = env._EXCEPTION_INT_DIVIDE_BY_ZERO then true
    else if code = env._EXCEPTION_INT_OVERFLOW then true
    else if code = env._EXCEPTION_FLT_DENORMAL_OPERAND then true
    else if code = env._EXCEPTION_FLT_DIVIDE_BY_ZERO then true
    else if code = env._EXCEPTION_FLT_INEXACT_RESULT then true
    else if code = env._EXCEPTION_FLT_OVERFLOW then true
    else if code = env._EXCEPTION_FLT_UNDERFLOW then true
    else if code = env._EXCEPTION_BREAKPOINT then true
    else if code = env._EXCEPTION_ILLEGAL_INSTRUCTION then true
    else false

/-- The function `crash` (lines 315-324): its body is empty. -/
def crash (s : State) : State := s

/-- The function `winthrow` (lines 204-245). -/
def winthrow (env : Env) (info r gp : Nat) (s : State) : Outcome Unit :=
  let g0 := s.getg
  (if s.panicking ≠ 0 then exit 2 s else Outcome.ret () s).bind fun _ s =>
  let s := { s with panicking := 1 }
  let s := s.setG g0 fun g => { g with stack := { g.stack with lo := 0 } }
  let s := s.setG g0 fun g => { g with stackguard0 := (g.stack.lo + env._StackGuard) % env.wordMod }
  let s := s.setG g0 fun g => { g with stackguard1 := g.stackguard0 }
  let s := print [Ev.str "Exception ", Ev.hex (s.infos info).exceptioncode, Ev.str " ",
    Ev.hex ((s.infos info).exceptioninformation 0), Ev.str " ",
    Ev.hex ((s.infos info).exceptioninformation 1), Ev.str " ",
    Ev.hex (s.ctxs r).ip, Ev.str "\n"] s
  let s := print [Ev.str "PC=", Ev.hex (s.ctxs r).ip, Ev.str "\n"] s
  let mp := (s.gs g0).m
  let takeCurg := (s.ms mp).incgo && gp == (s.ms mp).g0 && (s.ms mp).curg != 0
  let s := if takeCurg && env.iscgo then
      print [Ev.str "signal arrived during external code execution\n"] s
    else s
  let gp := if takeCurg then (s.ms mp).curg else gp
  let s := print [Ev.str "\n"] s
  let s := s.setM (s.gs g0).m fun m => { m with throwing := env.throwTypeRuntime }
  let s := s.setM (s.gs g0).m fun m => { m with caughtsig := gp }
  let tb := env.gotraceback s
  let level := tb.1
  let docrash := tb.2.2
  let s := if level > 0 then
      { s with out := s.out ++ [Ev.tracebacktrap (s.ctxs r).ip (s.ctxs r).sp (s.ctxs r).lr gp,
          Ev.tracebackothers gp, Ev.dumpregs (s.ctxs r)] }
    else s
  let s := if docrash then crash s else s
  exit 2 s

/-- The function `exceptionhandler` (lines 100-151). -/
def exceptionhandler (env : Env) (info r gp : Nat) (s : State) : Outcome Int :=
  if !isgoexception env info r s then
    Outcome.ret env._EXCEPTION_CONTINUE_SEARCH s
  else
    (if (s.gs gp).throwsplit || isAbort env r s then winthrow env info r gp s
      else Outcome.ret () s).bind fun _ s =>
    let s := s.setG gp fun g => { g with sig := (s.infos info).exceptioncode }
    let s := s.setG gp fun g => { g with sigcode0 := (s.infos info).exceptioninformation 0 }
    let s := s.setG gp fun g => { g with sigcode1 := (s.infos info).exceptioninformation 1 }
    let s := s.setG gp fun g => { g with sigpc := (s.ctxs r).ip }
    let s := if (s.ctxs r).ip ≠ 0 ∧ (s.ctxs r).ip ≠ env.asyncPreempt then
        let sp := (s.ctxs r).sp
        let delta := env.uintptr env.StackAlign
        let sp := env.add sp (env.neg delta)
        let s := s.setCtx r fun c => c.set_sp sp
        if env.usesLR then
          let s := s.store sp (s.ctxs r).lr
          s.setCtx r fun c => c.set_lr (s.ctxs r).ip
        else
          s.store sp (s.ctxs r).ip
      else s
    let s := s.setCtx r fun c => c.set_ip env.sigpanic0
    Outcome.ret env._EXCEPTION_CONTINUE_EXECUTION s

/-- The function `firstcontinuehandler` (lines 161-166). -/
def firstcontinuehandler (env : Env) (info r _gp : Nat) (s : State) : Outcome Int :=
  if !isgoexception env info r s then
    Outcome.ret env._EXCEPTION_CONTINUE_SEARCH s
  else
    Outcome.ret env._EXCEPTION_CONTINUE_EXECUTION s

/-- The function `lastcontinuehandler` (lines 176-200). -/
def lastcontinuehandler (env : Env) (info r gp : Nat) (s : State) : Outcome Int :=
  if env.islibrary || env.isarchive then
    Outcome.ret env._EXCEPTION_CONTINUE_SEARCH s
  else if s.testingWER then
    Outcome.ret env._EXCEPTION_CONTINUE_SEARCH s
  else if env.GOARCH == "arm64"
      && (s.infos info).exceptioncode == env._EXCEPTION_ILLEGAL_INSTRUCTION
      && ((s.ctxs r).ip < env.firstmoduledata.text || env.firstmoduledata.etext < (s.ctxs r).ip) then
    Outcome.ret env._EXCEPTION_CONTINUE_SEARCH s
  else
    (winthrow env info r gp s).bind fun _ s =>
    Outcome.ret 0 s

/-- How `sigpanic` leaves: through one of the panic functions or through
`throw`.  None of them returns to `sigpanic`. -/
inductive Raised where
  | panicmem : Raised
  | panicmemAddr : Nat → Raised
  | panicdivide : Raised
  | panicoverflow : Raised
  | panicfloat : Raised
  | throw : String → Raised
deriving DecidableEq, Repr

/-- The function `sigpanic` (lines 247-275): the panic or throw it ends in,
and the state at that point. -/
def sigpanic (env : Env) (s : State) : Raised × State :=
  let gp := s.gs s.getg
  if !env.canpanic s then
    (Raised.throw "unexpected signal during runtime execution", s)
  else if gp.sig = env._EXCEPTION_ACCESS_VIOLATION then
    if gp.sigcode1 < 0x1000 then (Raised.panicmem, s)
    else if gp.paniconfault then (Raised.panicmemAddr gp.sigcode1, s)
    else
      let s := print [Ev.str "unexpected fault address ", Ev.hex gp.sigcode1, Ev.str "\n"] s
      (Raised.throw "fault", s)
  else if gp.sig = env._EXCEPTION_INT_DIVIDE_BY_ZERO then (Raised.panicdivide, s)
  else if gp.sig = env._EXCEPTION_INT_OVERFLOW then (Raised.panicoverflow, s)
  else if gp.sig = env._EXCEPTION_FLT_DENORMAL_OPERAND
      ∨ gp.sig = env._EXCEPTION_FLT_DIVIDE_BY_ZERO
      ∨ gp.sig = env._EXCEPTION_FLT_INEXACT_RESULT
      ∨ gp.sig = env._EXCEPTION_FLT_OVERFLOW
      ∨ gp.sig = env._EXCEPTION_FLT_UNDERFLOW then (Raised.panicfloat, s)
  else (Raised.throw "fault", s)

/-- The constant `msg` of `setBadSignalMsg`. -/
def badSignalText : String := "runtime: signal received on thread not created by Go.\n"

/-- The increment `badsignallen++` on an `int32`. -/
def incInt32 (x : Int) : Int := (x + 1 + 2 ^ 31) % 2 ^ 32 - 2 ^ 31

/-- The loop of `setBadSignalMsg` (lines 284-287) over the characters that are
left, `i` being the byte offset of the next one.  A store outside the array
is a run-time panic: `none`. -/
def setBadSignalMsgLoop : List Char → Nat → State → Option State
  | [], _, s => some s
  | c :: cs, i, s =>
    if i < s.badsignalmsg.length then
      setBadSignalMsgLoop cs (i + c.utf8Size)
        { s with badsignalmsg := s.badsignalmsg.set i (c.toNat % 256),
                 badsignallen := incInt32 s.badsignallen }
    else none

/-- The function `setBadSignalMsg` (lines 282-288). -/
def setBadSignalMsg (s : State) : Option State :=
  setBadSignalMsgLoop badSignalText.toList 0 s

/-! ## Concrete inputs -/

/-- The task record used in the examples: nothing set. -/
def g_zero : G :=
  { stack := { lo := 0x1000, hi := 0x9000 }, stackguard0 := 0x1380, stackguard1 := 0x1380,
    m := 1, throwsplit := false, paniconfault := false,
    sig := 0, sigcode0 := 0, sigcode1 := 0, sigpc := 0 }

/-- An exception record with the given code and first two parameters. -/
def mkInfo (code p0 p1 : Nat) : ExceptionRecord :=
  { exceptioncode := code,
    exceptioninformation := fun i => if i = 0 then p0 else if i = 1 then p1 else 0 }

/-- A context with the given instruction pointer, stack pointer and link register. -/
def mkCtx (ip sp lr : Nat) : Context :=
  { ipReg := ip, spReg := sp, lrReg := lr, regs := [7, 8, 9] }

/-- A process state: thread `1` runs the handler on its `g0` (task `1`) for a
fault of task `2`; exception record `1` and context `1` describe the fault. -/
def mkState (info : ExceptionRecord) (ctx : Context) (gp : G) : State :=
  { infos := fun _ => info,
    ctxs := fun _ => ctx,
    gs := fun p => if p = 2 then gp else g_zero,
    ms := fun _ => { g0 := 1, curg := 2, incgo := false, throwing := 0, caughtsig := 0 },
    mem := fun _ => 0,
    getg := 1,
    panicking := 0,
    testingWER := false,
    badsignalmsg := List.replicate 100 0,
    badsignallen := 0,
    out := [] }

/-- A windows/amd64 executable: the exception codes of the Windows API, text
from `0x401000` to `0x49a000`, `abort` at `0x45f000`. -/
def amd64 : Env :=
  { GOARCH := "amd64", PtrSize := 8, StackAlign := 8, usesLR := false,
    firstmoduledata := { text := 0x401000, etext := 0x49a000 },
    islibrary := false, isarchive := false, iscgo := false,
    _EXCEPTION_ACCESS_VIOLATION := 0xc0000005,
    _EXCEPTION_BREAKPOINT := 0x80000003,
    _EXCEPTION_ILLEGAL_INSTRUCTION := 0xc000001d,
    _EXCEPTION_FLT_DENORMAL_OPERAND := 0xc000008d,
    _EXCEPTION_FLT_DIVIDE_BY_ZERO := 0xc000008e,
    _EXCEPTION_FLT_INEXACT_RESULT := 0xc000008f,
    _EXCEPTION_FLT_OVERFLOW := 0xc0000091,
    _EXCEPTION_FLT_UNDERFLOW := 0xc0000093,
    _EXCEPTION_INT_DIVIDE_BY_ZERO := 0xc0000094,
    _EXCEPTION_INT_OVERFLOW := 0xc0000095,
    _EXCEPTION_CONTINUE_EXECUTION := -1,
    _EXCEPTION_CONTINUE_SEARCH := 0,
    _StackGuard := 0x380,
    throwTypeRuntime := 2,
    asyncPreempt := 0x460000,
    sigpanic0 := 0x461000,
    isAbortPC := fun pc => decide (0x45f000 ≤ pc ∧ pc < 0x45f002),
    canpanic := fun s => s.getg == (s.ms (s.gs s.getg).m).curg
      && (s.ms (s.gs s.getg).m).throwing == 0,
    gotraceback := fun s => (if 2 ≤ (s.ms (s.gs s.getg).m).throwing then 2 else 1, false, false) }

/-- The process state in which a fault at `ip` with exception code `code` is
handled, the faulting task being `gp`. -/
def faultState (code ip : Nat) (gp : G) : State :=
  mkState (mkInfo code 0x10 0x20) (mkCtx ip 0x7ff000 0x1234) gp

/-- The state in which task `2` runs `sigpanic` on thread `1`, whose
`m.throwing` is `throwing`. -/
def panicState (throwing : Nat) (gp : G) : State :=
  { mkState (mkInfo 0 0 0) (mkCtx 0x461000 0x7ff000 0) gp with
    getg := 2,
    ms := fun _ => { g0 := 1, curg := 2, incgo := false, throwing := throwing, caughtsig := 0 } }

/-- A task whose signal-transfer record holds an access violation at `addr`. -/
def g_fault (addr : Nat) (paniconfault : Bool) : G :=
  { g_zero with sig := 0xc0000005, sigcode0 := 0, sigcode1 := addr, sigpc := 0x401500,
                paniconfault := paniconfault }

/-- A Go DLL on windows/amd64: `islibrary` is set. -/
def amd64dll : Env := { amd64 with islibrary := true }

/-- The state of `faultState` while a crash report is already in progress. -/
def reportingState (code ip : Nat) (gp : G) : State :=
  { faultState code ip gp with panicking := 1 }

/-- A windows/arm64 executable: link register, 8-byte pointers, 16-byte stack
alignment. -/
def arm64 : Env := { amd64 with GOARCH := "arm64", StackAlign := 16, usesLR := true }

/-- The amd64 example with the traceback setting `crash`: `gotraceback`
reports `docrash = true`. -/
def amd64crash : Env :=
  { amd64 with gotraceback := fun s => ((amd64.gotraceback s).1, false, true) }

/-! ## Vocabulary of the statements -/

/-- The ten exception codes that `isgoexception` lets through. -/
def recognized (env : Env) (code : Nat) : Prop :=
  code = env._EXCEPTION_ACCESS_VIOLATION ∨ code = env._EXCEPTION_INT_DIVIDE_BY_ZERO
  ∨ code = env._EXCEPTION_INT_OVERFLOW ∨ code = env._EXCEPTION_FLT_DENORMAL_OPERAND
  ∨ code = env._EXCEPTION_FLT_DIVIDE_BY_ZERO ∨ code = env._EXCEPTION_FLT_INEXACT_RESULT
  ∨ code = env._EXCEPTION_FLT_OVERFLOW ∨ code = env._EXCEPTION_FLT_UNDERFLOW
  ∨ code = env._EXCEPTION_BREAKPOINT ∨ code = env._EXCEPTION_ILLEGAL_INSTRUCTION

instance (env : Env) (code : Nat) : Decidable (recognized env code) := by
  unfold recognized; infer_instance

/-- The ten exception codes are pairwise different constants (Go rejects a
`switch` with a duplicate constant case). -/
def codesDistinct (env : Env) : Prop :=
  [env._EXCEPTION_ACCESS_VIOLATION, env._EXCEPTION_INT_DIVIDE_BY_ZERO,
   env._EXCEPTION_INT_OVERFLOW, env._EXCEPTION_FLT_DENORMAL_OPERAND,
   env._EXCEPTION_FLT_DIVIDE_BY_ZERO, env._EXCEPTION_FLT_INEXACT_RESULT,
   env._EXCEPTION_FLT_OVERFLOW, env._EXCEPTION_FLT_UNDERFLOW,
   env._EXCEPTION_BREAKPOINT, env._EXCEPTION_ILLEGAL_INSTRUCTION].Nodup

instance (env : Env) : Decidable (codesDistinct env) := by
  unfold codesDistinct; infer_instance

/-- The thread leaves the handler and runs task `gp` again: `getg()` is `gp`. -/
def resume (gp : Nat) (s : State) : State := { s with getg := gp }

/-- The situations in which `lastcontinuehandler` returns before the crash
reporter (lines 177-196). -/
def yieldsToOS (env : Env) (info r : Nat) (s : State) : Prop :=
  (env.islibrary = true ∨ env.isarchive = true)
  ∨ s.testingWER = true
  ∨ (env.GOARCH = "arm64"
      ∧ (s.infos info).exceptioncode = env._EXCEPTION_ILLEGAL_INSTRUCTION
      ∧ ((s.ctxs r).ip < env.firstmoduledata.text ∨ env.firstmoduledata.etext < (s.ctxs r).ip))


/-- The path of `exceptionhandler` past its two early exits: the classifier
accepts, `gp.throwsplit` is false and the fault is not an abort. -/
@[reducible] def recoverable (env : Env) (info r gp : Nat) (s : State) : Prop :=
  isgoexception env info r s = true ∧ (s.gs gp).throwsplit = false ∧ isAbort env r s = false

/-- The stack pointer after the push of lines 138-140: `add(sp, -delta)` with
`delta = uintptr(sys.StackAlign)`. -/
def pushedSp (env : Env) (sp : Nat) : Nat := env.add sp (env.neg (env.uintptr env.StackAlign))

/-- The loop of `setBadSignalMsg` as a function of the two variables it
writes, the buffer and the length; `setBadSignalMsgLoop_eq` relates it to the
loop on states. -/
def bufferLoop : List Char → Nat → List Nat → Int → Option (List Nat × Int)
  | [], _, buf, len => some (buf, len)
  | c :: cs, i, buf, len =>
    if i < buf.length then bufferLoop cs (i + c.utf8Size) (buf.set i (c.toNat % 256)) (incInt32 len)
    else none

/-- The bytes of the message of `setBadSignalMsg`. -/
def badSignalBytes : List Nat := badSignalText.toList.map fun c => c.toNat

instance (env : Env) (info r : Nat) (s : State) : Decidable (yieldsToOS env info r s) := by
  unfold yieldsToOS; infer_instance

/-! ## Theorems -/

/-- A chain of `if p then true else ...` is a disjunction. -/
theorem ite_true_or (p : Prop) [Decidable p] (b : Bool) :
    (if p then true else b) = true ↔ p ∨ b = true := by
  by_cases hp : p <;> simp [hp]

/-- The classifier accepts exactly the recognized codes inside the text
range. -/
theorem isgoexception_true_iff (env : Env) (info r : Nat) (s : State) :
    isgoexception env info r s = true ↔
      (env.firstmoduledata.text ≤ (s.ctxs r).ip ∧ (s.ctxs r).ip ≤ env.firstmoduledata.etext)
        ∧ recognized env (s.infos info).exceptioncode := by
  unfold isgoexception recognized
  by_cases h1 : (s.ctxs r).ip < env.firstmoduledata.text
  · simp [h1]
  · by_cases h2 : env.firstmoduledata.etext < (s.ctxs r).ip
    · simp [h2]
    · have h3 : env.firstmoduledata.text ≤ (s.ctxs r).ip := by omega
      have h4 : (s.ctxs r).ip ≤ env.firstmoduledata.etext := by omega
      simp only [h1, h2, h3, h4, decide_False, Bool.or_self, Bool.false_eq_true, if_false,
        true_and]
      simp only [ite_true_or, Bool.false_eq_true, or_false]

/-- C1: `isgoexception` is true exactly when the instruction pointer lies in
`[firstmoduledata.text, firstmoduledata.etext]`, both ends included, and the
exception code is one of the ten recognized codes; so an unrecognized code is
rejected at every address, and an address outside the range is rejected for
every code. -/
theorem isgoexception_iff (env : Env) (info r : Nat) (s : State) :
    (isgoexception env info r s = true ↔
      (env.firstmoduledata.text ≤ (s.ctxs r).ip ∧ (s.ctxs r).ip ≤ env.firstmoduledata.etext)
        ∧ recognized env (s.infos info).exceptioncode)
    ∧ (¬ recognized env (s.infos info).exceptioncode → isgoexception env info r s = false)
    ∧ (((s.ctxs r).ip < env.firstmoduledata.text ∨ env.firstmoduledata.etext < (s.ctxs r).ip) →
        isgoexception env info r s = false) := by
  have key := isgoexception_true_iff env info r s
  refine ⟨key, ?_, ?_⟩
  · intro h
    cases hb : isgoexception env info r s
    · rfl
    · exact absurd (key.mp hb).2 h
  · intro h
    cases hb : isgoexception env info r s
    · rfl
    · have := (key.mp hb).1
      omega

/-- C1 at concrete inputs: on windows/amd64 an access violation at the last
text address is accepted, and the same code one byte further is rejected. -/
theorem isgoexception_iff_witness :
    isgoexception amd64 1 1 (mkState (mkInfo 0xc0000005 0 0) (mkCtx 0x49a000 0x7ff000 0) g_zero) = true
    ∧ isgoexception amd64 1 1 (mkState (mkInfo 0xc0000005 0 0) (mkCtx 0x49a001 0x7ff000 0) g_zero)
        = false :=
  ⟨((isgoexception_iff amd64 1 1 _).1).mpr
      ⟨⟨by norm_num [mkState, mkCtx, Context.ip, amd64],
        by norm_num [mkState, mkCtx, Context.ip, amd64]⟩,
       Or.inl (by simp [mkState, mkInfo, amd64])⟩,
   (isgoexception_iff amd64 1 1 _).2.2
      (Or.inr (by norm_num [mkState, mkCtx, Context.ip, amd64]))⟩

/-! ### The crash reporter, as seen by its callers -/

/-- The state of an exited process. -/
theorem state_exited {α : Type} (c : Int) (s : State) :
    (Outcome.exited c s : Outcome α).state = s := rfl

/-- The state of a call that returned. -/
theorem state_ret {α : Type} (a : α) (s : State) : (Outcome.ret a s).state = s := rfl

/-- The crash reporter never returns: it ends in `exit(2)`. -/
theorem winthrow_exited (env : Env) (info r gp : Nat) (s : State) :
    winthrow env info r gp s = Outcome.exited 2 (winthrow env info r gp s).state := by
  unfold winthrow
  by_cases h : s.panicking = 0
  · simp only [h, ne_eq, not_true_eq_false, if_false, Outcome.bind, exit, Outcome.state]
  · simp only [h, ne_eq, not_false_eq_true, if_true, Outcome.bind, exit, Outcome.state]

/-- The crash reporter writes to no context. -/
theorem winthrow_ctxs (env : Env) (info r gp : Nat) (s : State) :
    (winthrow env info r gp s).state.ctxs = s.ctxs := by
  unfold winthrow
  by_cases h : s.panicking = 0
  · simp [h, Outcome.bind, exit, Outcome.state, print, State.setG, State.setM, crash,
      apply_ite State.ctxs]
  · simp only [h, ne_eq, not_false_eq_true, if_true, Outcome.bind, exit, Outcome.state]

/-- The crash reporter stores nothing in stack memory. -/
theorem winthrow_mem (env : Env) (info r gp : Nat) (s : State) :
    (winthrow env info r gp s).state.mem = s.mem := by
  unfold winthrow
  by_cases h : s.panicking = 0
  · simp [h, Outcome.bind, exit, Outcome.state, print, State.setG, State.setM, crash,
      apply_ite State.mem]
  · simp only [h, ne_eq, not_false_eq_true, if_true, Outcome.bind, exit, Outcome.state]

/-- The crash reporter leaves the signal-transfer record of every task alone. -/
theorem winthrow_sigrec (env : Env) (info r gp : Nat) (s : State) (p : Nat) :
    ((winthrow env info r gp s).state.gs p).sig = (s.gs p).sig
    ∧ ((winthrow env info r gp s).state.gs p).sigcode0 = (s.gs p).sigcode0
    ∧ ((winthrow env info r gp s).state.gs p).sigcode1 = (s.gs p).sigcode1
    ∧ ((winthrow env info r gp s).state.gs p).sigpc = (s.gs p).sigpc := by
  unfold winthrow
  by_cases h : s.panicking = 0
  · by_cases hp : p = s.getg
    · simp [h, hp, Outcome.bind, exit, Outcome.state, print, State.setG, State.setM, crash,
        apply_ite State.gs]
    · simp [h, hp, Outcome.bind, exit, Outcome.state, print, State.setG, State.setM, crash,
        apply_ite State.gs, Function.update_apply]
  · simp only [h, ne_eq, not_false_eq_true, if_true, Outcome.bind, exit, Outcome.state,
      and_self]

/-! ### The first handler -/

/-- The abort test looks up `ip - 1` (as a `uintptr`) on 386, amd64 and arm,
and `ip` itself on every other architecture. -/
theorem isAbort_eq (env : Env) (r : Nat) (s : State) :
    ((env.GOARCH = "386" ∨ env.GOARCH = "amd64" ∨ env.GOARCH = "arm") →
        isAbort env r s = env.isAbortPC (((s.ctxs r).ip + env.wordMod - 1) % env.wordMod)
        ∧ (0 < (s.ctxs r).ip → (s.ctxs r).ip < env.wordMod →
            isAbort env r s = env.isAbortPC ((s.ctxs r).ip - 1)))
    ∧ (¬ (env.GOARCH = "386" ∨ env.GOARCH = "amd64" ∨ env.GOARCH = "arm") →
        isAbort env r s = env.isAbortPC (s.ctxs r).ip) := by
  constructor
  · intro h
    have hc : (env.GOARCH == "386" || env.GOARCH == "amd64" || env.GOARCH == "arm") = true := by
      simpa [or_assoc] using h
    have e : isAbort env r s
        = env.isAbortPC (((s.ctxs r).ip + env.wordMod - 1) % env.wordMod) := by
      unfold isAbort
      simp only [hc, if_true]
    refine ⟨e, fun h0 h1 => ?_⟩
    rw [e]
    have e2 : (s.ctxs r).ip + env.wordMod - 1 = ((s.ctxs r).ip - 1) + env.wordMod := by omega
    rw [e2, Nat.add_mod_right, Nat.mod_eq_of_lt (by omega)]
  · intro h
    have hc : ¬ (env.GOARCH == "386" || env.GOARCH == "amd64" || env.GOARCH == "arm") = true := by
      simpa [or_assoc] using h
    unfold isAbort
    simp only [hc, Bool.false_eq_true, if_false]

/-- C2: when the classifier accepts and the task must not grow its stack or
the fault is an abort (`isAbortPC` of `ip - 1` on 386, amd64 and arm, of `ip`
elsewhere), `exceptionhandler` ends in the crash reporter: the process exits
with status 2 in the state `winthrow` leaves, nothing is returned (so not
`_EXCEPTION_CONTINUE_EXECUTION`), the signal-transfer record of the task is
not written, and the context and stack memory are left as they were. -/
theorem exceptionhandler_abort_crashes (env : Env) (info r gp : Nat) (s : State)
    (hacc : isgoexception env info r s = true)
    (hab : (s.gs gp).throwsplit = true ∨ isAbort env r s = true) :
    (((env.GOARCH = "386" ∨ env.GOARCH = "amd64" ∨ env.GOARCH = "arm") →
        isAbort env r s = env.isAbortPC (((s.ctxs r).ip + env.wordMod - 1) % env.wordMod)
        ∧ (0 < (s.ctxs r).ip → (s.ctxs r).ip < env.wordMod →
            isAbort env r s = env.isAbortPC ((s.ctxs r).ip - 1)))
      ∧ (¬ (env.GOARCH = "386" ∨ env.GOARCH = "amd64" ∨ env.GOARCH = "arm") →
        isAbort env r s = env.isAbortPC (s.ctxs r).ip))
    ∧ exceptionhandler env info r gp s = Outcome.exited 2 (winthrow env info r gp s).state
    ∧ (exceptionhandler env info r gp s).value = none
    ∧ (exceptionhandler env info r gp s).value ≠ some env._EXCEPTION_CONTINUE_EXECUTION
    ∧ ((exceptionhandler env info r gp s).state.gs gp).sig = (s.gs gp).sig
    ∧ ((exceptionhandler env info r gp s).state.gs gp).sigcode0 = (s.gs gp).sigcode0
    ∧ ((exceptionhandler env info r gp s).state.gs gp).sigcode1 = (s.gs gp).sigcode1
    ∧ ((exceptionhandler env info r gp s).state.gs gp).sigpc = (s.gs gp).sigpc
    ∧ ((exceptionhandler env info r gp s).state.ctxs r).ip = (s.ctxs r).ip
    ∧ ((exceptionhandler env info r gp s).state.ctxs r).sp = (s.ctxs r).sp
    ∧ ((exceptionhandler env info r gp s).state.ctxs r).lr = (s.ctxs r).lr
    ∧ (exceptionhandler env info r gp s).state.mem = s.mem := by
  have hc : ((s.gs gp).throwsplit || isAbort env r s) = true := by
    rcases hab with h | h <;> simp [h]
  have he : exceptionhandler env info r gp s
      = Outcome.exited 2 (winthrow env info r gp s).state := by
    unfold exceptionhandler
    rw [if_neg (by simp [hacc]), if_pos hc, winthrow_exited]
    rfl
  have hs := winthrow_sigrec env info r gp s gp
  have hc := winthrow_ctxs env info r gp s
  have hm := winthrow_mem env info r gp s
  refine ⟨isAbort_eq env r s, ?_⟩
  rw [he]
  refine ⟨rfl, rfl, by simp [Outcome.value], ?_⟩
  rw [state_exited, hc, hm]
  exact ⟨hs.1, hs.2.1, hs.2.2.1, hs.2.2.2, rfl, rfl, rfl, rfl⟩

/-- C2 at a concrete input: on windows/amd64 a breakpoint one byte after the
`INT3` of `abort`, on a task with `throwsplit` false, exits with status 2. -/
theorem exceptionhandler_abort_crashes_witness :
    (exceptionhandler amd64 1 1 2 (faultState 0x80000003 0x45f001 g_zero)).status = some 2 := by
  have h := (exceptionhandler_abort_crashes amd64 1 1 2 (faultState 0x80000003 0x45f001 g_zero)
    (by decide) (Or.inr (by decide))).2.1
  rw [h]
  rfl

/-- On the recoverable path `exceptionhandler` returns
`_EXCEPTION_CONTINUE_EXECUTION`. -/
theorem exceptionhandler_recoverable_ret (env : Env) (info r gp : Nat) (s : State)
    (h : recoverable env info r gp s) :
    exceptionhandler env info r gp s
      = Outcome.ret env._EXCEPTION_CONTINUE_EXECUTION (exceptionhandler env info r gp s).state := by
  obtain ⟨h1, h2, h3⟩ := h
  have hc : ¬ ((s.gs gp).throwsplit || isAbort env r s) = true := by simp [h2, h3]
  unfold exceptionhandler
  rw [if_neg (by simp [h1]), if_neg hc]
  simp only [Outcome.bind, state_ret]

/-- On the recoverable path the only task written is `gp`, and of it only the
signal-transfer record. -/
theorem exceptionhandler_recoverable_gs (env : Env) (info r gp : Nat) (s : State)
    (h : recoverable env info r gp s) :
    (exceptionhandler env info r gp s).state.gs = Function.update s.gs gp
      { s.gs gp with sig := (s.infos info).exceptioncode,
                     sigcode0 := (s.infos info).exceptioninformation 0,
                     sigcode1 := (s.infos info).exceptioninformation 1,
                     sigpc := (s.ctxs r).ip } := by
  obtain ⟨h1, h2, h3⟩ := h
  have hc : ¬ ((s.gs gp).throwsplit || isAbort env r s) = true := by simp [h2, h3]
  unfold exceptionhandler
  rw [if_neg (by simp [h1]), if_neg hc]
  simp only [Outcome.bind, state_ret]
  simp [State.setG, State.setCtx, State.store, apply_ite State.gs]

/-- On the recoverable path, the context the handler leaves. -/
theorem exceptionhandler_recoverable_ctx (env : Env) (info r gp : Nat) (s : State)
    (h : recoverable env info r gp s) :
    (exceptionhandler env info r gp s).state.ctxs r =
      if (s.ctxs r).ip ≠ 0 ∧ (s.ctxs r).ip ≠ env.asyncPreempt then
        { s.ctxs r with ipReg := env.sigpanic0, spReg := pushedSp env (s.ctxs r).sp,
                        lrReg := if env.usesLR then (s.ctxs r).ip else (s.ctxs r).lr }
      else { s.ctxs r with ipReg := env.sigpanic0 } := by
  obtain ⟨h1, h2, h3⟩ := h
  have hc : ¬ ((s.gs gp).throwsplit || isAbort env r s) = true := by simp [h2, h3]
  unfold exceptionhandler
  rw [if_neg (by simp [h1]), if_neg hc]
  simp only [Outcome.bind, state_ret]
  by_cases hp : (s.ctxs r).ip ≠ 0 ∧ (s.ctxs r).ip ≠ env.asyncPreempt
  · have hq : ¬(s.ctxs r).ipReg = 0 ∧ ¬(s.ctxs r).ipReg = env.asyncPreempt := hp
    cases hl : env.usesLR <;>
    simp [State.setG, State.setCtx, State.store, hq, hl, pushedSp, Context.set_ip,
      Context.set_sp, Context.set_lr, Context.ip, Context.sp, Context.lr]
  · have hq : ¬ (¬(s.ctxs r).ipReg = 0 ∧ ¬(s.ctxs r).ipReg = env.asyncPreempt) := hp
    simp [State.setG, State.setCtx, State.store, hq, Context.set_ip,
      Context.ip]

/-- On the recoverable path, the stack memory the handler leaves. -/
theorem exceptionhandler_recoverable_mem (env : Env) (info r gp : Nat) (s : State)
    (h : recoverable env info r gp s) :
    (exceptionhandler env info r gp s).state.mem =
      if (s.ctxs r).ip ≠ 0 ∧ (s.ctxs r).ip ≠ env.asyncPreempt then
        Function.update s.mem (pushedSp env (s.ctxs r).sp)
          (if env.usesLR then (s.ctxs r).lr else (s.ctxs r).ip)
      else s.mem := by
  obtain ⟨h1, h2, h3⟩ := h
  have hc : ¬ ((s.gs gp).throwsplit || isAbort env r s) = true := by simp [h2, h3]
  unfold exceptionhandler
  rw [if_neg (by simp [h1]), if_neg hc]
  simp only [Outcome.bind, state_ret]
  by_cases hp : (s.ctxs r).ip ≠ 0 ∧ (s.ctxs r).ip ≠ env.asyncPreempt
  · have hq : ¬(s.ctxs r).ipReg = 0 ∧ ¬(s.ctxs r).ipReg = env.asyncPreempt := hp
    cases hl : env.usesLR <;>
    simp [State.setG, State.setCtx, State.store, hq, hl, pushedSp, Context.set_ip,
      Context.set_sp, Context.set_lr, Context.ip, Context.sp, Context.lr]
  · have hq : ¬ (¬(s.ctxs r).ipReg = 0 ∧ ¬(s.ctxs r).ipReg = env.asyncPreempt) := hp
    simp [State.setG, State.setCtx, State.store, hq, Context.set_ip,
      Context.ip]

/-- Subtracting a non-zero `StackAlign` below the word size moves the stack
pointer. -/
theorem pushedSp_ne (env : Env) (sp : Nat) (h0 : 0 < env.StackAlign)
    (h1 : env.StackAlign < env.wordMod) : pushedSp env sp ≠ sp := by
  unfold pushedSp Env.add Env.neg Env.uintptr
  have e1 : env.StackAlign % env.wordMod = env.StackAlign := Nat.mod_eq_of_lt h1
  have e2 : (env.wordMod - env.StackAlign) % env.wordMod = env.wordMod - env.StackAlign :=
    Nat.mod_eq_of_lt (by omega)
  rw [e1, e1, e2]
  intro h
  have hlt : sp < env.wordMod := by
    rw [← h]
    exact Nat.mod_lt _ (by omega)
  by_cases hs : env.StackAlign ≤ sp
  · have e : sp + (env.wordMod - env.StackAlign) = (sp - env.StackAlign) + env.wordMod := by
      omega
    rw [e, Nat.add_mod_right, Nat.mod_eq_of_lt (by omega)] at h
    omega
  · rw [Nat.mod_eq_of_lt (by omega)] at h
    omega

/-- Without wrap-around the push lowers the stack pointer by `StackAlign`. -/
theorem pushedSp_add (env : Env) (sp : Nat) (h0 : 0 < env.StackAlign)
    (h1 : env.StackAlign < env.wordMod) (h2 : env.StackAlign ≤ sp) (h3 : sp < env.wordMod) :
    pushedSp env sp + env.StackAlign = sp := by
  unfold pushedSp Env.add Env.neg Env.uintptr
  have e1 : env.StackAlign % env.wordMod = env.StackAlign := Nat.mod_eq_of_lt h1
  have e2 : (env.wordMod - env.StackAlign) % env.wordMod = env.wordMod - env.StackAlign :=
    Nat.mod_eq_of_lt (by omega)
  rw [e1, e1, e2]
  have e : sp + (env.wordMod - env.StackAlign) = (sp - env.StackAlign) + env.wordMod := by
    omega
  rw [e, Nat.add_mod_right, Nat.mod_eq_of_lt (by omega)]
  omega

/-- C3: on the recoverable path the push of a return address is skipped (stack
pointer, link register and stack memory as before) exactly when the faulting
`ip` is `0` or the entry of `asyncPreempt`; for every other `ip` the stack
pointer becomes `sp - StackAlign` modulo the word size, which differs from
`sp` (and is `StackAlign` below it when nothing wraps), and the word at the
new stack pointer is the pushed one. -/
theorem exceptionhandler_push_skipped_iff (env : Env) (info r gp : Nat) (s : State)
    (h : recoverable env info r gp s)
    (h0 : 0 < env.StackAlign) (h1 : env.StackAlign < env.wordMod) :
    ((((exceptionhandler env info r gp s).state.ctxs r).sp = (s.ctxs r).sp
        ∧ ((exceptionhandler env info r gp s).state.ctxs r).lr = (s.ctxs r).lr
        ∧ (exceptionhandler env info r gp s).state.mem = s.mem)
      ↔ ((s.ctxs r).ip = 0 ∨ (s.ctxs r).ip = env.asyncPreempt))
    ∧ (((s.ctxs r).ip ≠ 0 ∧ (s.ctxs r).ip ≠ env.asyncPreempt) →
        ((exceptionhandler env info r gp s).state.ctxs r).sp = pushedSp env (s.ctxs r).sp
        ∧ ((exceptionhandler env info r gp s).state.ctxs r).sp ≠ (s.ctxs r).sp
        ∧ (env.StackAlign ≤ (s.ctxs r).sp → (s.ctxs r).sp < env.wordMod →
            ((exceptionhandler env info r gp s).state.ctxs r).sp + env.StackAlign = (s.ctxs r).sp)
        ∧ (exceptionhandler env info r gp s).state.mem
              ((exceptionhandler env info r gp s).state.ctxs r).sp
            = if env.usesLR then (s.ctxs r).lr else (s.ctxs r).ip) := by
  have hctx := exceptionhandler_recoverable_ctx env info r gp s h
  have hmem := exceptionhandler_recoverable_mem env info r gp s h
  have hne := pushedSp_ne env (s.ctxs r).sp h0 h1
  by_cases hp : (s.ctxs r).ip ≠ 0 ∧ (s.ctxs r).ip ≠ env.asyncPreempt
  · rw [if_pos hp] at hctx hmem
    rw [hctx, hmem]
    refine ⟨⟨fun hh => absurd hh.1 hne, fun hh => ?_⟩, fun _ => ⟨rfl, hne, ?_, ?_⟩⟩
    · rcases hh with hh | hh
      · exact absurd hh hp.1
      · exact absurd hh hp.2
    · intro h2 h3
      exact pushedSp_add env (s.ctxs r).sp h0 h1 h2 h3
    · exact Function.update_same _ _ _
  · rw [if_neg hp] at hctx hmem
    rw [hctx, hmem]
    refine ⟨⟨fun _ => ?_, fun _ => ⟨rfl, rfl, rfl⟩⟩, fun hh => absurd hh hp⟩
    by_cases hz : (s.ctxs r).ip = 0
    · exact Or.inl hz
    · by_cases ha : (s.ctxs r).ip = env.asyncPreempt
      · exact Or.inr ha
      · exact absurd ⟨hz, ha⟩ hp

/-- C3 at a concrete input: on windows/amd64 a divide fault at `0x401500` with
`sp = 0x7ff000` leaves `sp = 0x7feff8`. -/
theorem exceptionhandler_push_skipped_iff_witness :
    recoverable amd64 1 1 2 (faultState 0xc0000094 0x401500 g_zero)
    ∧ ((exceptionhandler amd64 1 1 2 (faultState 0xc0000094 0x401500 g_zero)).state.ctxs 1).sp
        + 8 = 0x7ff000 :=
  ⟨⟨by decide, by decide, by decide⟩,
   ((exceptionhandler_push_skipped_iff amd64 1 1 2 (faultState 0xc0000094 0x401500 g_zero)
      ⟨by decide, by decide, by decide⟩ (by decide) (by norm_num [amd64, Env.wordMod])).2
      ⟨by decide, by decide⟩).2.2.1 (by decide) (by norm_num [amd64, Env.wordMod, faultState,
        mkState, mkCtx, Context.sp])⟩

/-- C4: on the recoverable path the signal-transfer record of `gp` is filled
from the fault as delivered: `sig` is the exception code, `sigcode0` and
`sigcode1` are the first two exception parameters, and `sigpc` is the `ip` the
context had on entry, whatever that `ip` is. -/
theorem exceptionhandler_fills_sigrec (env : Env) (info r gp : Nat) (s : State)
    (h : recoverable env info r gp s) :
    ((exceptionhandler env info r gp s).state.gs gp).sig = (s.infos info).exceptioncode
    ∧ ((exceptionhandler env info r gp s).state.gs gp).sigcode0
        = (s.infos info).exceptioninformation 0
    ∧ ((exceptionhandler env info r gp s).state.gs gp).sigcode1
        = (s.infos info).exceptioninformation 1
    ∧ ((exceptionhandler env info r gp s).state.gs gp).sigpc = (s.ctxs r).ip := by
  rw [exceptionhandler_recoverable_gs env info r gp s h, Function.update_same]
  exact ⟨rfl, rfl, rfl, rfl⟩

/-- C4 at a concrete input: an access violation at `0x401500` with parameters
`0x10` and `0x20` on windows/amd64. -/
theorem exceptionhandler_fills_sigrec_witness :
    ((exceptionhandler amd64 1 1 2 (faultState 0xc0000005 0x401500 g_zero)).state.gs 2).sig
        = 0xc0000005
    ∧ ((exceptionhandler amd64 1 1 2 (faultState 0xc0000005 0x401500 g_zero)).state.gs 2).sigcode0
        = 0x10
    ∧ ((exceptionhandler amd64 1 1 2 (faultState 0xc0000005 0x401500 g_zero)).state.gs 2).sigcode1
        = 0x20
    ∧ ((exceptionhandler amd64 1 1 2 (faultState 0xc0000005 0x401500 g_zero)).state.gs 2).sigpc
        = 0x401500 :=
  exceptionhandler_fills_sigrec amd64 1 1 2 (faultState 0xc0000005 0x401500 g_zero)
    ⟨by decide, by decide, by decide⟩

/-- C5: on the recoverable path `exceptionhandler` returns
`_EXCEPTION_CONTINUE_EXECUTION` and the context resumes at the entry of
`sigpanic0`; when the faulting `ip` is `0` or the entry of `asyncPreempt`,
the instruction pointer is the only thing overwritten in the context, and
stack memory is untouched. -/
theorem exceptionhandler_resumes_in_sigpanic0 (env : Env) (info r gp : Nat) (s : State)
    (h : recoverable env info r gp s) :
    (exceptionhandler env info r gp s).value = some env._EXCEPTION_CONTINUE_EXECUTION
    ∧ (exceptionhandler env info r gp s).status = none
    ∧ ((exceptionhandler env info r gp s).state.ctxs r).ip = env.sigpanic0
    ∧ (((s.ctxs r).ip = 0 ∨ (s.ctxs r).ip = env.asyncPreempt) →
        (exceptionhandler env info r gp s).state.ctxs r = (s.ctxs r).set_ip env.sigpanic0
        ∧ (exceptionhandler env info r gp s).state.mem = s.mem) := by
  have hret := exceptionhandler_recoverable_ret env info r gp s h
  have hctx := exceptionhandler_recoverable_ctx env info r gp s h
  have hmem := exceptionhandler_recoverable_mem env info r gp s h
  refine ⟨by rw [hret]; rfl, by rw [hret]; rfl, ?_, ?_⟩
  · rw [hctx]
    split_ifs <;> rfl
  · intro hz
    have hp : ¬ ((s.ctxs r).ip ≠ 0 ∧ (s.ctxs r).ip ≠ env.asyncPreempt) := by
      rintro ⟨a, b⟩
      rcases hz with hz | hz
      · exact a hz
      · exact b hz
    rw [if_neg hp] at hctx hmem
    exact ⟨hctx, hmem⟩

/-- C5 at a concrete input: a fault at the entry of `asyncPreempt` on
windows/amd64 returns `-1` and only redirects the instruction pointer. -/
theorem exceptionhandler_resumes_in_sigpanic0_witness :
    (exceptionhandler amd64 1 1 2 (faultState 0xc0000005 0x460000 g_zero)).value = some (-1)
    ∧ (exceptionhandler amd64 1 1 2 (faultState 0xc0000005 0x460000 g_zero)).state.ctxs 1
        = mkCtx 0x461000 0x7ff000 0x1234 :=
  ⟨(exceptionhandler_resumes_in_sigpanic0 amd64 1 1 2 (faultState 0xc0000005 0x460000 g_zero)
      ⟨by decide, by decide, by decide⟩).1,
   ((exceptionhandler_resumes_in_sigpanic0 amd64 1 1 2 (faultState 0xc0000005 0x460000 g_zero)
      ⟨by decide, by decide, by decide⟩).2.2.2 (Or.inr (by decide))).1⟩

/-! ### The panic dispatcher -/

/-- C6, against the claim as stated: a low-address access violation on a
thread that is already throwing (so `canpanic()` is false) ends in `throw`,
not in `panicmem`. -/
theorem sigpanic_low_address_counterexample :
    ((panicState 2 (g_fault 0 false)).gs (panicState 2 (g_fault 0 false)).getg).sig
        = amd64._EXCEPTION_ACCESS_VIOLATION
    ∧ ((panicState 2 (g_fault 0 false)).gs (panicState 2 (g_fault 0 false)).getg).sigcode1 < 0x1000
    ∧ (sigpanic amd64 (panicState 2 (g_fault 0 false))).1
        = Raised.throw "unexpected signal during runtime execution"
    ∧ (sigpanic amd64 (panicState 2 (g_fault 0 false))).1 ≠ Raised.panicmem := by
  refine ⟨by decide, by decide, by decide, by decide⟩

/-- C6, amended: when `canpanic()` holds, an access violation with fault
address below `0x1000` ends in `panicmem`, whatever `paniconfault` is, with
nothing printed and no `throw`. -/
theorem sigpanic_low_address (env : Env) (s : State)
    (hcan : env.canpanic s = true)
    (hsig : (s.gs s.getg).sig = env._EXCEPTION_ACCESS_VIOLATION)
    (haddr : (s.gs s.getg).sigcode1 < 0x1000) :
    sigpanic env s = (Raised.panicmem, s)
    ∧ ∀ msg, (sigpanic env s).1 ≠ Raised.throw msg := by
  have h : sigpanic env s = (Raised.panicmem, s) := by
    unfold sigpanic
    simp [hcan, hsig, haddr]
  rw [h]
  exact ⟨rfl, fun msg => by simp⟩

/-- C6 amended, at concrete inputs: fault address `0xfff` with `paniconfault`
set, on a thread that can panic. -/
theorem sigpanic_low_address_witness :
    sigpanic amd64 (panicState 0 (g_fault 0xfff true))
      = (Raised.panicmem, panicState 0 (g_fault 0xfff true)) :=
  (sigpanic_low_address amd64 (panicState 0 (g_fault 0xfff true))
    (by decide) (by decide) (by decide)).1

/-- C7: when `canpanic()` holds and the signal is an access violation with
fault address `a` at or above `0x1000`, `sigpanic` ends in `panicmemAddr(a)` if
`paniconfault` is set and in `throw("fault")` otherwise (after printing the
address); the threshold is exact: `0xfff` gives `panicmem`, `0x1000` does
not. -/
theorem sigpanic_high_address (env : Env) (s : State)
    (hcan : env.canpanic s = true)
    (hsig : (s.gs s.getg).sig = env._EXCEPTION_ACCESS_VIOLATION) :
    (0x1000 ≤ (s.gs s.getg).sigcode1 → (s.gs s.getg).paniconfault = true →
        sigpanic env s = (Raised.panicmemAddr (s.gs s.getg).sigcode1, s))
    ∧ (0x1000 ≤ (s.gs s.getg).sigcode1 → (s.gs s.getg).paniconfault = false →
        sigpanic env s = (Raised.throw "fault",
          print [Ev.str "unexpected fault address ", Ev.hex (s.gs s.getg).sigcode1,
            Ev.str "\n"] s))
    ∧ ((s.gs s.getg).sigcode1 = 0xfff → (sigpanic env s).1 = Raised.panicmem)
    ∧ ((s.gs s.getg).sigcode1 = 0x1000 → (sigpanic env s).1 ≠ Raised.panicmem) := by
  refine ⟨?_, ?_, ?_, ?_⟩
  · intro ha hp
    unfold sigpanic
    simp [hcan, hsig, hp, Nat.not_lt.mpr ha]
  · intro ha hp
    unfold sigpanic
    simp [hcan, hsig, hp, Nat.not_lt.mpr ha]
  · intro ha
    unfold sigpanic
    simp [hcan, hsig, ha]
  · intro ha
    unfold sigpanic
    cases hp : (s.gs s.getg).paniconfault <;> simp [hcan, hsig, ha, hp]

/-- C7 at a concrete input: fault address `0x7FFF0000` with `paniconfault`
set gives `panicmemAddr(0x7FFF0000)`. -/
theorem sigpanic_high_address_witness :
    sigpanic amd64 (panicState 0 (g_fault 0x7FFF0000 true))
      = (Raised.panicmemAddr 0x7FFF0000, panicState 0 (g_fault 0x7FFF0000 true)) :=
  (sigpanic_high_address amd64 (panicState 0 (g_fault 0x7FFF0000 true))
    (by decide) (by decide)).1 (by decide) (by decide)

/-- The task that `sigpanic` reads after the handler has returned and the
thread runs `gp` again carries the exception code as `sig`. -/
theorem resumed_sig (env : Env) (info r gp : Nat) (s : State)
    (h : recoverable env info r gp s) :
    ((resume gp (exceptionhandler env info r gp s).state).gs
        (resume gp (exceptionhandler env info r gp s).state).getg).sig
      = (s.infos info).exceptioncode := by
  show ((exceptionhandler env info r gp s).state.gs gp).sig = _
  rw [exceptionhandler_recoverable_gs env info r gp s h, Function.update_same]

/-- C8: for a fault inside the text range on a task with `throwsplit` false
that is not an abort, the handler returns `_EXCEPTION_CONTINUE_EXECUTION`, and
`sigpanic`, run by the resumed task when it can panic, ends in `panicdivide`
for integer divide-by-zero, in `panicoverflow` for integer overflow and in
`panicfloat` for each of the five floating-point codes. -/
theorem end_to_end_arithmetic (env : Env) (info r gp : Nat) (s : State)
    (hd : codesDistinct env)
    (hip : env.firstmoduledata.text ≤ (s.ctxs r).ip ∧ (s.ctxs r).ip ≤ env.firstmoduledata.etext)
    (hts : (s.gs gp).throwsplit = false) (hab : isAbort env r s = false)
    (hcan : env.canpanic (resume gp (exceptionhandler env info r gp s).state) = true) :
    ((s.infos info).exceptioncode = env._EXCEPTION_INT_DIVIDE_BY_ZERO →
        (exceptionhandler env info r gp s).value = some env._EXCEPTION_CONTINUE_EXECUTION
        ∧ (sigpanic env (resume gp (exceptionhandler env info r gp s).state)).1
            = Raised.panicdivide)
    ∧ ((s.infos info).exceptioncode = env._EXCEPTION_INT_OVERFLOW →
        (exceptionhandler env info r gp s).value = some env._EXCEPTION_CONTINUE_EXECUTION
        ∧ (sigpanic env (resume gp (exceptionhandler env info r gp s).state)).1
            = Raised.panicoverflow)
    ∧ (((s.infos info).exceptioncode = env._EXCEPTION_FLT_DENORMAL_OPERAND
          ∨ (s.infos info).exceptioncode = env._EXCEPTION_FLT_DIVIDE_BY_ZERO
          ∨ (s.infos info).exceptioncode = env._EXCEPTION_FLT_INEXACT_RESULT
          ∨ (s.infos info).exceptioncode = env._EXCEPTION_FLT_OVERFLOW
          ∨ (s.infos info).exceptioncode = env._EXCEPTION_FLT_UNDERFLOW) →
        (exceptionhandler env info r gp s).value = some env._EXCEPTION_CONTINUE_EXECUTION
        ∧ (sigpanic env (resume gp (exceptionhandler env info r gp s).state)).1
            = Raised.panicfloat) := by
  simp only [codesDistinct, List.nodup_cons, List.mem_cons, List.mem_singleton, not_or,
    List.not_mem_nil, not_false_eq_true, List.nodup_nil, and_true] at hd
  have hval : recoverable env info r gp s →
      (exceptionhandler env info r gp s).value = some env._EXCEPTION_CONTINUE_EXECUTION := by
    intro h
    rw [exceptionhandler_recoverable_ret env info r gp s h]
    rfl
  have hrec : recognized env (s.infos info).exceptioncode → recoverable env info r gp s :=
    fun hr => ⟨(isgoexception_true_iff env info r s).mpr ⟨hip, hr⟩, hts, hab⟩
  refine ⟨fun hc => ?_, fun hc => ?_, fun hc => ?_⟩
  · have h : recoverable env info r gp s := hrec (Or.inr (Or.inl hc))
    have hs := resumed_sig env info r gp s h
    refine ⟨hval h, ?_⟩
    unfold sigpanic
    simp only [hcan, hs, hc]
    simp [Ne.symm hd.1.1]
  · have h : recoverable env info r gp s := hrec (Or.inr (Or.inr (Or.inl hc)))
    have hs := resumed_sig env info r gp s h
    refine ⟨hval h, ?_⟩
    unfold sigpanic
    simp only [hcan, hs, hc]
    simp [Ne.symm hd.1.2.1, Ne.symm hd.2.1.1]
  · have h : recoverable env info r gp s := hrec (by
      rcases hc with hc | hc | hc | hc | hc <;> simp [recognized, hc])
    have hs := resumed_sig env info r gp s h
    refine ⟨hval h, ?_⟩
    unfold sigpanic
    simp only [hcan, hs]
    have n1 : (s.infos info).exceptioncode ≠ env._EXCEPTION_ACCESS_VIOLATION := by
      rcases hc with hc | hc | hc | hc | hc <;> rw [hc] <;> intro e <;> simp [e] at hd
    have n2 : (s.infos info).exceptioncode ≠ env._EXCEPTION_INT_DIVIDE_BY_ZERO := by
      rcases hc with hc | hc | hc | hc | hc <;> rw [hc] <;> intro e <;> simp [e] at hd
    have n3 : (s.infos info).exceptioncode ≠ env._EXCEPTION_INT_OVERFLOW := by
      rcases hc with hc | hc | hc | hc | hc <;> rw [hc] <;> intro e <;> simp [e] at hd
    simp [n1, n2, n3, hc]

/-- The ten Windows exception codes of the amd64 example are distinct. -/
theorem amd64_codesDistinct : codesDistinct amd64 := by
  simp [codesDistinct, amd64]

/-- C8 at a concrete input: an integer divide-by-zero at `0x401500` on
windows/amd64 ends in `panicdivide`. -/
theorem end_to_end_arithmetic_witness :
    (sigpanic amd64 (resume 2 (exceptionhandler amd64 1 1 2
      (faultState 0xc0000094 0x401500 g_zero)).state)).1 = Raised.panicdivide :=
  ((end_to_end_arithmetic amd64 1 1 2 (faultState 0xc0000094 0x401500 g_zero)
    amd64_codesDistinct ⟨by decide, by decide⟩ (by decide) (by decide)
    (by decide)).1 (by decide)).2

/-- C9: `sigpanic` ends in `throw("unexpected signal during runtime
execution")` whenever `canpanic()` is false, whatever the signal-transfer
record holds; and when `canpanic()` is true and `sig` is none of access
violation, integer divide-by-zero, integer overflow and the five
floating-point codes, it ends in `throw("fault")`; breakpoint and illegal
instruction are such codes. -/
theorem sigpanic_fatal (env : Env) (s : State) :
    (env.canpanic s = false →
        sigpanic env s = (Raised.throw "unexpected signal during runtime execution", s))
    ∧ (env.canpanic s = true →
        (s.gs s.getg).sig ≠ env._EXCEPTION_ACCESS_VIOLATION →
        (s.gs s.getg).sig ≠ env._EXCEPTION_INT_DIVIDE_BY_ZERO →
        (s.gs s.getg).sig ≠ env._EXCEPTION_INT_OVERFLOW →
        (s.gs s.getg).sig ≠ env._EXCEPTION_FLT_DENORMAL_OPERAND →
        (s.gs s.getg).sig ≠ env._EXCEPTION_FLT_DIVIDE_BY_ZERO →
        (s.gs s.getg).sig ≠ env._EXCEPTION_FLT_INEXACT_RESULT →
        (s.gs s.getg).sig ≠ env._EXCEPTION_FLT_OVERFLOW →
        (s.gs s.getg).sig ≠ env._EXCEPTION_FLT_UNDERFLOW →
        sigpanic env s = (Raised.throw "fault", s))
    ∧ (codesDistinct env → env.canpanic s = true →
        ((s.gs s.getg).sig = env._EXCEPTION_BREAKPOINT
          ∨ (s.gs s.getg).sig = env._EXCEPTION_ILLEGAL_INSTRUCTION) →
        sigpanic env s = (Raised.throw "fault", s)) := by
  have main : env.canpanic s = true →
      (s.gs s.getg).sig ≠ env._EXCEPTION_ACCESS_VIOLATION →
      (s.gs s.getg).sig ≠ env._EXCEPTION_INT_DIVIDE_BY_ZERO →
      (s.gs s.getg).sig ≠ env._EXCEPTION_INT_OVERFLOW →
      (s.gs s.getg).sig ≠ env._EXCEPTION_FLT_DENORMAL_OPERAND →
      (s.gs s.getg).sig ≠ env._EXCEPTION_FLT_DIVIDE_BY_ZERO →
      (s.gs s.getg).sig ≠ env._EXCEPTION_FLT_INEXACT_RESULT →
      (s.gs s.getg).sig ≠ env._EXCEPTION_FLT_OVERFLOW →
      (s.gs s.getg).sig ≠ env._EXCEPTION_FLT_UNDERFLOW →
      sigpanic env s = (Raised.throw "fault", s) := by
    intro hcan n1 n2 n3 n4 n5 n6 n7 n8
    unfold sigpanic
    simp [hcan, n1, n2, n3, n4, n5, n6, n7, n8]
  refine ⟨?_, main, ?_⟩
  · intro hcan
    unfold sigpanic
    simp [hcan]
  · intro hd hcan hc
    simp only [codesDistinct, List.nodup_cons, List.mem_cons, List.mem_singleton, not_or,
      List.not_mem_nil, not_false_eq_true, List.nodup_nil, and_true] at hd
    rcases hc with hc | hc <;>
    · apply main hcan <;> rw [hc] <;> intro e <;> simp [e] at hd

/-- C9 at concrete inputs: a breakpoint reaching `sigpanic` on a thread that
can panic ends in `throw("fault")`. -/
theorem sigpanic_fatal_witness :
    sigpanic amd64 (panicState 0 { g_zero with sig := 0x80000003 })
      = (Raised.throw "fault", panicState 0 { g_zero with sig := 0x80000003 }) :=
  (sigpanic_fatal amd64 (panicState 0 { g_zero with sig := 0x80000003 })).2.2
    amd64_codesDistinct (by decide) (Or.inl (by decide))

/-! ### The last continuation handler -/

/-- C10, the code at the failing input: in a Go DLL (`islibrary` set) a fault
whose instruction pointer is inside the text range is handed back to the OS:
`_EXCEPTION_CONTINUE_SEARCH` is returned, the process does not exit and
nothing is printed, because lines 177-182 return without reading `r.ip()`.
The same fault in an executable ends in the crash reporter with status 2. -/
theorem lastcontinuehandler_library_hands_back :
    amd64dll.islibrary = true
    ∧ amd64dll.firstmoduledata.text ≤ ((faultState 0xc00000fd 0x401500 g_zero).ctxs 1).ip
    ∧ ((faultState 0xc00000fd 0x401500 g_zero).ctxs 1).ip ≤ amd64dll.firstmoduledata.etext
    ∧ (lastcontinuehandler amd64dll 1 1 2 (faultState 0xc00000fd 0x401500 g_zero)).value
        = some amd64dll._EXCEPTION_CONTINUE_SEARCH
    ∧ (lastcontinuehandler amd64dll 1 1 2 (faultState 0xc00000fd 0x401500 g_zero)).status
        = none
    ∧ (lastcontinuehandler amd64dll 1 1 2 (faultState 0xc00000fd 0x401500 g_zero)).state.out
        = []
    ∧ (lastcontinuehandler amd64 1 1 2 (faultState 0xc00000fd 0x401500 g_zero)).status
        = some 2 := by
  refine ⟨by decide, by decide, by decide, by decide, by decide, by decide, by decide⟩

/-- The paths of `lastcontinuehandler` as the code has them: it returns
`_EXCEPTION_CONTINUE_SEARCH`, changing nothing, on the library/archive guard
(which does not look at the instruction pointer), on `testingWER`, and on the
arm64 illegal-instruction test outside the text range; on every other input it
ends in the crash reporter. -/
theorem lastcontinuehandler_paths (env : Env) (info r gp : Nat) (s : State) :
    ((lastcontinuehandler env info r gp s).value = some env._EXCEPTION_CONTINUE_SEARCH
        ↔ yieldsToOS env info r s)
    ∧ (yieldsToOS env info r s →
        lastcontinuehandler env info r gp s = Outcome.ret env._EXCEPTION_CONTINUE_SEARCH s)
    ∧ (¬ yieldsToOS env info r s →
        lastcontinuehandler env info r gp s
          = Outcome.exited 2 (winthrow env info r gp s).state) := by
  have hy : yieldsToOS env info r s →
      lastcontinuehandler env info r gp s = Outcome.ret env._EXCEPTION_CONTINUE_SEARCH s := by
    intro h
    unfold lastcontinuehandler
    by_cases h1 : (env.islibrary || env.isarchive) = true
    · rw [if_pos h1]
    · rw [if_neg h1]
      by_cases h2 : s.testingWER = true
      · rw [if_pos h2]
      · rw [if_neg h2]
        have h3 : (env.GOARCH == "arm64"
            && (s.infos info).exceptioncode == env._EXCEPTION_ILLEGAL_INSTRUCTION
            && (decide ((s.ctxs r).ip < env.firstmoduledata.text)
                || decide (env.firstmoduledata.etext < (s.ctxs r).ip))) = true := by
          rcases h with h | h | ⟨ha, hb, hc⟩
          · exact absurd (by simpa using h) h1
          · exact absurd h h2
          · simpa [ha, hb] using hc
        rw [if_pos h3]
  have hn : ¬ yieldsToOS env info r s →
      lastcontinuehandler env info r gp s
        = Outcome.exited 2 (winthrow env info r gp s).state := by
    intro h
    unfold yieldsToOS at h
    simp only [not_or] at h
    obtain ⟨⟨h1, h1b⟩, h2, h3⟩ := h
    unfold lastcontinuehandler
    rw [if_neg (by simp [h1, h1b]), if_neg h2, if_neg (by simpa using h3), winthrow_exited]
    rfl
  refine ⟨⟨fun hv => ?_, fun h => by rw [hy h]; rfl⟩, hy, hn⟩
  by_contra hc
  rw [hn hc] at hv
  simp [Outcome.value] at hv

/-! ### The first continuation handler -/

/-- C11: `firstcontinuehandler` returns `_EXCEPTION_CONTINUE_EXECUTION` when
`isgoexception` is true and `_EXCEPTION_CONTINUE_SEARCH` when it is false (an
equivalence, the two constants being different), it always returns, and the
state it returns in is the one it was called in: no context, task, memory or
flag is written and the crash reporter is not entered, whatever `throwsplit`
and `isAbort` are. -/
theorem firstcontinuehandler_only_stops (env : Env) (info r gp : Nat) (s : State) :
    (isgoexception env info r s = true →
        firstcontinuehandler env info r gp s
          = Outcome.ret env._EXCEPTION_CONTINUE_EXECUTION s)
    ∧ (isgoexception env info r s = false →
        firstcontinuehandler env info r gp s = Outcome.ret env._EXCEPTION_CONTINUE_SEARCH s)
    ∧ (env._EXCEPTION_CONTINUE_EXECUTION ≠ env._EXCEPTION_CONTINUE_SEARCH →
        ((firstcontinuehandler env info r gp s).value = some env._EXCEPTION_CONTINUE_EXECUTION
          ↔ isgoexception env info r s = true))
    ∧ (∃ v, firstcontinuehandler env info r gp s = Outcome.ret v s)
    ∧ (firstcontinuehandler env info r gp s).status = none := by
  cases h : isgoexception env info r s
  · have e : firstcontinuehandler env info r gp s
        = Outcome.ret env._EXCEPTION_CONTINUE_SEARCH s := by
      unfold firstcontinuehandler
      simp [h]
    rw [e]
    refine ⟨fun hh => by simp at hh, fun _ => rfl, fun hne => ?_, ⟨_, rfl⟩, rfl⟩
    simp only [Outcome.value, Option.some.injEq, Bool.false_eq_true, iff_false]
    exact fun hh => hne hh.symm
  · have e : firstcontinuehandler env info r gp s
        = Outcome.ret env._EXCEPTION_CONTINUE_EXECUTION s := by
      unfold firstcontinuehandler
      simp [h]
    rw [e]
    exact ⟨fun _ => rfl, fun hh => by simp at hh, fun _ => by simp [Outcome.value],
      ⟨_, rfl⟩, rfl⟩

/-- C11 at a concrete input: an abort breakpoint on a task with `throwsplit`
set is answered with `_EXCEPTION_CONTINUE_EXECUTION` (`-1`) and nothing more. -/
theorem firstcontinuehandler_only_stops_witness :
    isAbort amd64 1 (faultState 0x80000003 0x45f001 { g_zero with throwsplit := true }) = true
    ∧ (firstcontinuehandler amd64 1 1 2
        (faultState 0x80000003 0x45f001 { g_zero with throwsplit := true })).value = some (-1) := by
  refine ⟨by decide, ?_⟩
  rw [(firstcontinuehandler_only_stops amd64 1 1 2
    (faultState 0x80000003 0x45f001 { g_zero with throwsplit := true })).1 (by decide)]
  rfl

/-! ### The crash reporter -/

/-- With the flag already set, the crash reporter exits at once. -/
theorem winthrow_reentered (env : Env) (info r gp : Nat) (s : State) (h : s.panicking ≠ 0) :
    winthrow env info r gp s = Outcome.exited 2 s := by
  unfold winthrow
  simp only [h, ne_eq, not_false_eq_true, if_true, Outcome.bind, exit]

/-- The flag after the crash reporter: kept if it was set, `1` otherwise. -/
theorem winthrow_panicking (env : Env) (info r gp : Nat) (s : State) :
    (winthrow env info r gp s).state.panicking = if s.panicking ≠ 0 then s.panicking else 1 := by
  by_cases h : s.panicking = 0
  · unfold winthrow
    simp [h, Outcome.bind, exit, Outcome.state, print, State.setG, State.setM, crash,
      apply_ite State.panicking]
  · rw [winthrow_reentered env info r gp s h, if_pos h]
    rfl

/-- C12: entered with `panicking` non-zero, `winthrow` exits the process with
status 2 in the very state it was entered in: nothing is printed, and the
stack bounds and guards of `g0`, `m.throwing`, `m.caughtsig` and `panicking`
keep their values. -/
theorem winthrow_nonreentrant (env : Env) (info r gp : Nat) (s : State)
    (h : s.panicking ≠ 0) :
    winthrow env info r gp s = Outcome.exited 2 s
    ∧ (winthrow env info r gp s).status = some 2
    ∧ (winthrow env info r gp s).state.out = s.out
    ∧ (winthrow env info r gp s).state.gs = s.gs
    ∧ (winthrow env info r gp s).state.ms = s.ms
    ∧ (winthrow env info r gp s).state.panicking = s.panicking := by
  rw [winthrow_reentered env info r gp s h]
  exact ⟨rfl, rfl, rfl, rfl, rfl, rfl⟩

/-- C12 at a concrete input: a fault reported while another report is in
progress prints nothing. -/
theorem winthrow_nonreentrant_witness :
    (winthrow amd64 1 1 2
      { faultState 0xc0000005 0x401500 g_zero with panicking := 1 }).state.out = [] :=
  (winthrow_nonreentrant amd64 1 1 2
    { faultState 0xc0000005 0x401500 g_zero with panicking := 1 } (by decide)).2.2.1

/-- C13: every execution of `winthrow` ends in `exit(2)`: it returns no value,
so nothing placed after a call of it is executed (the context rewrite in
`exceptionhandler`, `return 0` in `lastcontinuehandler`), and `panicking` is
non-zero when the process exits. -/
theorem winthrow_terminal (env : Env) (info r gp : Nat) (s : State) :
    (winthrow env info r gp s).status = some 2
    ∧ (winthrow env info r gp s).value = none
    ∧ (winthrow env info r gp s).state.panicking ≠ 0
    ∧ (∀ (β : Type) (f : Unit → State → Outcome β),
        (winthrow env info r gp s).bind f = Outcome.exited 2 (winthrow env info r gp s).state)
    ∧ (isgoexception env info r s = true →
        ((s.gs gp).throwsplit = true ∨ isAbort env r s = true) →
        (exceptionhandler env info r gp s).status = some 2
        ∧ (exceptionhandler env info r gp s).value = none)
    ∧ (¬ yieldsToOS env info r s →
        (lastcontinuehandler env info r gp s).status = some 2
        ∧ (lastcontinuehandler env info r gp s).value = none) := by
  have he := winthrow_exited env info r gp s
  have hp := winthrow_panicking env info r gp s
  refine ⟨by rw [he]; rfl, by rw [he]; rfl, ?_, fun β f => by rw [he]; rfl, ?_, ?_⟩
  · rw [hp]
    split_ifs with h
    · exact h
    · decide
  · intro hacc hab
    have hc : ((s.gs gp).throwsplit || isAbort env r s) = true := by
      rcases hab with h | h <;> simp [h]
    have e : exceptionhandler env info r gp s
        = Outcome.exited 2 (winthrow env info r gp s).state := by
      unfold exceptionhandler
      rw [if_neg (by simp [hacc]), if_pos hc, he]
      rfl
    rw [e]
    exact ⟨rfl, rfl⟩
  · intro h
    unfold yieldsToOS at h
    simp only [not_or] at h
    obtain ⟨⟨h1, h1b⟩, h2, h3⟩ := h
    have e : lastcontinuehandler env info r gp s
        = Outcome.exited 2 (winthrow env info r gp s).state := by
      unfold lastcontinuehandler
      rw [if_neg (by simp [h1, h1b]), if_neg h2, if_neg (by simpa using h3), he]
      rfl
    rw [e]
    exact ⟨rfl, rfl⟩

/-- C13 at a concrete input: `lastcontinuehandler` of an executable never
reaches its `return 0`. -/
theorem winthrow_terminal_witness :
    (lastcontinuehandler amd64 1 1 2 (faultState 0xc00000fd 0x401500 g_zero)).value = none :=
  ((winthrow_terminal amd64 1 1 2 (faultState 0xc00000fd 0x401500 g_zero)).2.2.2.2.2
    (by decide)).2

/-! ### The first handler and the crash flag -/

/-- C14, against the claim as stated: with `panicking` already set, a divide
fault on a recoverable task is still rewritten into the panic dispatcher and
answered with `_EXCEPTION_CONTINUE_EXECUTION`; the process does not exit. -/
theorem exceptionhandler_flag_set_counterexample :
    (reportingState 0xc0000094 0x401500 g_zero).panicking ≠ 0
    ∧ (exceptionhandler amd64 1 1 2 (reportingState 0xc0000094 0x401500 g_zero)).value
        = some amd64._EXCEPTION_CONTINUE_EXECUTION
    ∧ (exceptionhandler amd64 1 1 2 (reportingState 0xc0000094 0x401500 g_zero)).status = none
    ∧ ((exceptionhandler amd64 1 1 2 (reportingState 0xc0000094 0x401500 g_zero)).state.ctxs 1).ip
        = amd64.sigpanic0 := by
  refine ⟨by decide, by decide, by decide, by decide⟩

/-- C14, amended: with `panicking` non-zero, every fault that
`exceptionhandler` sends to the crash reporter (classifier accepts, and
`throwsplit` or abort) ends the process with status 2 in the state the handler
was entered in: nothing printed, nothing rewritten, nothing returned.  The
handler itself does not read the flag: a rejected fault is still passed on
and a recoverable one still returns `_EXCEPTION_CONTINUE_EXECUTION`. -/
theorem exceptionhandler_flag_set (env : Env) (info r gp : Nat) (s : State)
    (hp : s.panicking ≠ 0) :
    (isgoexception env info r s = true →
        ((s.gs gp).throwsplit = true ∨ isAbort env r s = true) →
        exceptionhandler env info r gp s = Outcome.exited 2 s)
    ∧ (isgoexception env info r s = false →
        exceptionhandler env info r gp s = Outcome.ret env._EXCEPTION_CONTINUE_SEARCH s)
    ∧ (recoverable env info r gp s →
        (exceptionhandler env info r gp s).value = some env._EXCEPTION_CONTINUE_EXECUTION) := by
  refine ⟨fun hacc hab => ?_, fun hrej => ?_, fun h => ?_⟩
  · have hc : ((s.gs gp).throwsplit || isAbort env r s) = true := by
      rcases hab with h | h <;> simp [h]
    unfold exceptionhandler
    rw [if_neg (by simp [hacc]), if_pos hc, winthrow_reentered env info r gp s hp]
    rfl
  · unfold exceptionhandler
    rw [if_pos (by simp [hrej])]
  · rw [exceptionhandler_recoverable_ret env info r gp s h]
    rfl

/-- C14 amended, at a concrete input: an abort breakpoint while a report is in
progress exits with status 2 and prints nothing. -/
theorem exceptionhandler_flag_set_witness :
    exceptionhandler amd64 1 1 2 (reportingState 0x80000003 0x45f001 g_zero)
      = Outcome.exited 2 (reportingState 0x80000003 0x45f001 g_zero) :=
  (exceptionhandler_flag_set amd64 1 1 2 (reportingState 0x80000003 0x45f001 g_zero)
    (by decide)).1 (by decide) (Or.inr (by decide))

/-! ### What the first handler leaves alone -/

/-- The crash reporter writes to no exception record. -/
theorem winthrow_infos (env : Env) (info r gp : Nat) (s : State) :
    (winthrow env info r gp s).state.infos = s.infos := by
  unfold winthrow
  by_cases h : s.panicking = 0
  · simp [h, Outcome.bind, exit, Outcome.state, print, State.setG, State.setM, crash,
      apply_ite State.infos]
  · simp only [h, ne_eq, not_false_eq_true, if_true, Outcome.bind, exit, Outcome.state]

/-- Of the tasks, the crash reporter writes only the stack bound `lo` and the
two stack guards of the `g0` it runs on. -/
theorem winthrow_gs_frame (env : Env) (info r gp : Nat) (s : State) (p : Nat) :
    ((winthrow env info r gp s).state.gs p).m = (s.gs p).m
    ∧ ((winthrow env info r gp s).state.gs p).throwsplit = (s.gs p).throwsplit
    ∧ ((winthrow env info r gp s).state.gs p).paniconfault = (s.gs p).paniconfault
    ∧ ((winthrow env info r gp s).state.gs p).stack.hi = (s.gs p).stack.hi
    ∧ (p ≠ s.getg → (winthrow env info r gp s).state.gs p = s.gs p) := by
  unfold winthrow
  by_cases h : s.panicking = 0
  · by_cases hp : p = s.getg
    · simp [h, hp, Outcome.bind, exit, Outcome.state, print, State.setG, State.setM, crash,
        apply_ite State.gs]
    · simp [h, hp, Outcome.bind, exit, Outcome.state, print, State.setG, State.setM, crash,
        apply_ite State.gs, Function.update_apply]
  · simp only [h, ne_eq, not_false_eq_true, if_true, Outcome.bind, exit, Outcome.state,
      and_self, implies_true]

/-- The three ways `exceptionhandler` ends. -/
theorem exceptionhandler_cases (env : Env) (info r gp : Nat) (s : State) :
    (isgoexception env info r s = false
        ∧ exceptionhandler env info r gp s = Outcome.ret env._EXCEPTION_CONTINUE_SEARCH s)
    ∨ (isgoexception env info r s = true
        ∧ ((s.gs gp).throwsplit = true ∨ isAbort env r s = true)
        ∧ exceptionhandler env info r gp s
            = Outcome.exited 2 (winthrow env info r gp s).state)
    ∨ (recoverable env info r gp s
        ∧ exceptionhandler env info r gp s
            = Outcome.ret env._EXCEPTION_CONTINUE_EXECUTION
                (exceptionhandler env info r gp s).state) := by
  cases hacc : isgoexception env info r s
  · left
    refine ⟨rfl, ?_⟩
    unfold exceptionhandler
    rw [if_pos (by simp [hacc])]
  · right
    by_cases hc : ((s.gs gp).throwsplit || isAbort env r s) = true
    · left
      refine ⟨rfl, by simpa using hc, ?_⟩
      unfold exceptionhandler
      rw [if_neg (by simp [hacc]), if_pos hc, winthrow_exited]
      rfl
    · right
      have h : recoverable env info r gp s := by
        simp only [Bool.or_eq_true, not_or, Bool.not_eq_true] at hc
        exact ⟨hacc, hc.1, hc.2⟩
      exact ⟨h, exceptionhandler_recoverable_ret env info r gp s h⟩

/-- On the recoverable path no exception record is written. -/
theorem exceptionhandler_recoverable_infos (env : Env) (info r gp : Nat) (s : State)
    (h : recoverable env info r gp s) :
    (exceptionhandler env info r gp s).state.infos = s.infos := by
  obtain ⟨h1, h2, h3⟩ := h
  have hc : ¬ ((s.gs gp).throwsplit || isAbort env r s) = true := by simp [h2, h3]
  unfold exceptionhandler
  rw [if_neg (by simp [h1]), if_neg hc]
  simp only [Outcome.bind, state_ret]
  simp [State.setG, State.setCtx, State.store, apply_ite State.infos]

/-- On the recoverable path no context other than `r` is written. -/
theorem exceptionhandler_recoverable_ctxs_other (env : Env) (info r gp : Nat) (s : State)
    (h : recoverable env info r gp s) (q : Nat) (hq : q ≠ r) :
    (exceptionhandler env info r gp s).state.ctxs q = s.ctxs q := by
  obtain ⟨h1, h2, h3⟩ := h
  have hc : ¬ ((s.gs gp).throwsplit || isAbort env r s) = true := by simp [h2, h3]
  unfold exceptionhandler
  rw [if_neg (by simp [h1]), if_neg hc]
  simp only [Outcome.bind, state_ret]
  by_cases hp : ¬(s.ctxs r).ipReg = 0 ∧ ¬(s.ctxs r).ipReg = env.asyncPreempt
  · cases hl : env.usesLR <;>
    simp [State.setG, State.setCtx, State.store, hp, hl, hq, Context.ip, Function.update_apply]
  · simp [State.setG, State.setCtx, State.store, hp, hq, Context.ip, Function.update_apply]

/-- C15, against the claim as stated: an abort on the `g0` the handler runs on
ends in the crash reporter, which sets `stack.lo` of that task to `0` and its
stack guards to `_StackGuard`: task fields other than the signal-transfer
record are changed. -/
theorem exceptionhandler_frame_counterexample :
    ((faultState 0x80000003 0x45f001 g_zero).gs 1).stack.lo = 0x1000
    ∧ ((faultState 0x80000003 0x45f001 g_zero).gs 1).stackguard0 = 0x1380
    ∧ ((exceptionhandler amd64 1 1 1 (faultState 0x80000003 0x45f001 g_zero)).state.gs 1).stack.lo
        = 0
    ∧ ((exceptionhandler amd64 1 1 1
          (faultState 0x80000003 0x45f001 g_zero)).state.gs 1).stackguard0 = 0x380
    ∧ ((exceptionhandler amd64 1 1 1
          (faultState 0x80000003 0x45f001 g_zero)).state.gs 1).stackguard1 = 0x380 := by
  refine ⟨by decide, by decide, by decide, by decide, by decide⟩

/-- C15, amended: for every input `exceptionhandler` leaves the registers of
every context other than `ip`, `sp`, `lr` of `r` as they were, writes no
exception record, and writes no task field other than `sig`, `sigcode0`,
`sigcode1`, `sigpc` of `gp`, except that on the path into the crash reporter
`stack.lo`, `stackguard0` and `stackguard1` of the running `g0` are reset;
whenever it returns, stack bounds and guards of every task are as before; and
whenever the classifier rejects it returns `_EXCEPTION_CONTINUE_SEARCH` in
the unchanged state. -/
theorem exceptionhandler_frame (env : Env) (info r gp : Nat) (s : State) :
    (∀ q, ((exceptionhandler env info r gp s).state.ctxs q).regs = (s.ctxs q).regs
        ∧ (q ≠ r → (exceptionhandler env info r gp s).state.ctxs q = s.ctxs q))
    ∧ (exceptionhandler env info r gp s).state.infos = s.infos
    ∧ (∀ p, ((exceptionhandler env info r gp s).state.gs p).m = (s.gs p).m
        ∧ ((exceptionhandler env info r gp s).state.gs p).throwsplit = (s.gs p).throwsplit
        ∧ ((exceptionhandler env info r gp s).state.gs p).paniconfault = (s.gs p).paniconfault
        ∧ ((exceptionhandler env info r gp s).state.gs p).stack.hi = (s.gs p).stack.hi)
    ∧ (∀ p, p ≠ gp →
        ((exceptionhandler env info r gp s).state.gs p).sig = (s.gs p).sig
        ∧ ((exceptionhandler env info r gp s).state.gs p).sigcode0 = (s.gs p).sigcode0
        ∧ ((exceptionhandler env info r gp s).state.gs p).sigcode1 = (s.gs p).sigcode1
        ∧ ((exceptionhandler env info r gp s).state.gs p).sigpc = (s.gs p).sigpc)
    ∧ (∀ p, ((exceptionhandler env info r gp s).status = none ∨ p ≠ s.getg) →
        ((exceptionhandler env info r gp s).state.gs p).stack = (s.gs p).stack
        ∧ ((exceptionhandler env info r gp s).state.gs p).stackguard0 = (s.gs p).stackguard0
        ∧ ((exceptionhandler env info r gp s).state.gs p).stackguard1 = (s.gs p).stackguard1)
    ∧ (isgoexception env info r s = false →
        exceptionhandler env info r gp s = Outcome.ret env._EXCEPTION_CONTINUE_SEARCH s)
    ∧ (env._EXCEPTION_CONTINUE_EXECUTION ≠ env._EXCEPTION_CONTINUE_SEARCH →
        (exceptionhandler env info r gp s).value = some env._EXCEPTION_CONTINUE_SEARCH →
        exceptionhandler env info r gp s = Outcome.ret env._EXCEPTION_CONTINUE_SEARCH s) := by
  rcases exceptionhandler_cases env info r gp s with ⟨hrej, e⟩ | ⟨hacc, hab, e⟩ | ⟨h, e⟩
  · rw [e]
    exact ⟨fun q => ⟨rfl, fun _ => rfl⟩, rfl, fun p => ⟨rfl, rfl, rfl, rfl⟩,
      fun p _ => ⟨rfl, rfl, rfl, rfl⟩, fun p _ => ⟨rfl, rfl, rfl⟩, fun _ => rfl, fun _ _ => rfl⟩
  · have hctx := winthrow_ctxs env info r gp s
    have hinf := winthrow_infos env info r gp s
    rw [e]
    simp only [state_exited]
    refine ⟨fun q => by rw [hctx]; exact ⟨rfl, fun _ => rfl⟩, hinf, fun p => ?_, fun p _ => ?_,
      fun p hp => ?_, fun hh => by rw [hacc] at hh; exact absurd hh (by decide),
      fun _ hv => by simp [Outcome.value] at hv⟩
    · have hf := winthrow_gs_frame env info r gp s p
      exact ⟨hf.1, hf.2.1, hf.2.2.1, hf.2.2.2.1⟩
    · exact winthrow_sigrec env info r gp s p
    · rcases hp with hp | hp
      · simp [Outcome.status] at hp
      · rw [(winthrow_gs_frame env info r gp s p).2.2.2.2 hp]
        exact ⟨rfl, rfl, rfl⟩
  · have hgs := exceptionhandler_recoverable_gs env info r gp s h
    have hctx := exceptionhandler_recoverable_ctx env info r gp s h
    have hinf := exceptionhandler_recoverable_infos env info r gp s h
    refine ⟨fun q => ⟨?_, fun hq => exceptionhandler_recoverable_ctxs_other env info r gp s h q hq⟩,
      hinf, fun p => ?_, fun p hp => ?_, fun p _ => ?_,
      fun hh => by rw [h.1] at hh; exact absurd hh (by decide), fun hne hv => ?_⟩
    · by_cases hq : q = r
      · rw [hq, hctx]
        split_ifs <;> rfl
      · rw [exceptionhandler_recoverable_ctxs_other env info r gp s h q hq]
    · rw [hgs]
      by_cases hp : p = gp
      · rw [hp, Function.update_same]
        exact ⟨rfl, rfl, rfl, rfl⟩
      · rw [Function.update_noteq hp]
        exact ⟨rfl, rfl, rfl, rfl⟩
    · rw [hgs, Function.update_noteq hp]
      exact ⟨rfl, rfl, rfl, rfl⟩
    · rw [hgs]
      by_cases hp : p = gp
      · rw [hp, Function.update_same]
        exact ⟨rfl, rfl, rfl⟩
      · rw [Function.update_noteq hp]
        exact ⟨rfl, rfl, rfl⟩
    · rw [e] at hv
      simp only [Outcome.value, Option.some.injEq] at hv
      exact absurd hv hne

/-- C15 amended, at a concrete input: a fault outside the text range is passed
on with nothing changed. -/
theorem exceptionhandler_frame_witness :
    exceptionhandler amd64 1 1 2 (faultState 0xc0000005 0x7ff800000000 g_zero)
      = Outcome.ret 0 (faultState 0xc0000005 0x7ff800000000 g_zero) :=
  (exceptionhandler_frame amd64 1 1 2
    (faultState 0xc0000005 0x7ff800000000 g_zero)).2.2.2.2.2.1 (by decide)

/-! ### The pushed word -/

/-- C16: when the push is done (recoverable path, `ip` neither `0` nor the
entry of `asyncPreempt`), without a link register the word at the new stack
pointer is the faulting `ip` and `lr` is untouched; with a link register the
word at the new stack pointer is the old `lr` and `lr` becomes the faulting
`ip`. -/
theorem exceptionhandler_pushed_word (env : Env) (info r gp : Nat) (s : State)
    (h : recoverable env info r gp s)
    (hz : (s.ctxs r).ip ≠ 0) (ha : (s.ctxs r).ip ≠ env.asyncPreempt) :
    (env.usesLR = false →
        (exceptionhandler env info r gp s).state.mem
            ((exceptionhandler env info r gp s).state.ctxs r).sp = (s.ctxs r).ip
        ∧ ((exceptionhandler env info r gp s).state.ctxs r).lr = (s.ctxs r).lr)
    ∧ (env.usesLR = true →
        (exceptionhandler env info r gp s).state.mem
            ((exceptionhandler env info r gp s).state.ctxs r).sp = (s.ctxs r).lr
        ∧ ((exceptionhandler env info r gp s).state.ctxs r).lr = (s.ctxs r).ip) := by
  have hctx := exceptionhandler_recoverable_ctx env info r gp s h
  have hmem := exceptionhandler_recoverable_mem env info r gp s h
  rw [if_pos ⟨hz, ha⟩] at hctx hmem
  rw [hctx, hmem]
  constructor
  · intro hl
    simp only [hl, Bool.false_eq_true, if_false]
    exact ⟨Function.update_same _ _ _, rfl⟩
  · intro hl
    simp only [hl, if_true]
    exact ⟨Function.update_same _ _ _, rfl⟩

/-- C16 at a concrete input: on windows/arm64 a fault at `0x401500` with
`lr = 0x1234` stores `0x1234` at the new stack pointer and sets `lr` to
`0x401500`. -/
theorem exceptionhandler_pushed_word_witness :
    (exceptionhandler arm64 1 1 2 (faultState 0xc0000005 0x401500 g_zero)).state.mem
        ((exceptionhandler arm64 1 1 2 (faultState 0xc0000005 0x401500 g_zero)).state.ctxs 1).sp
      = ((faultState 0xc0000005 0x401500 g_zero).ctxs 1).lr
    ∧ ((exceptionhandler arm64 1 1 2 (faultState 0xc0000005 0x401500 g_zero)).state.ctxs 1).lr
      = ((faultState 0xc0000005 0x401500 g_zero).ctxs 1).ip :=
  (exceptionhandler_pushed_word arm64 1 1 2 (faultState 0xc0000005 0x401500 g_zero)
    ⟨by decide, by decide, by decide⟩ (by decide) (by decide)).2 (by decide)

/-- C17, against the claim as stated: on windows/arm64 (`PtrSize = 8`,
`sys.StackAlign = 16`) the push lowers the stack pointer from `0x7ff000` to
`0x7feff0`, sixteen bytes, not to `0x7feff8`. -/
theorem exceptionhandler_push_size_counterexample :
    recoverable arm64 1 1 2 (faultState 0xc0000005 0x401500 g_zero)
    ∧ arm64.PtrSize = 8
    ∧ ((faultState 0xc0000005 0x401500 g_zero).ctxs 1).sp = 0x7ff000
    ∧ ((exceptionhandler arm64 1 1 2 (faultState 0xc0000005 0x401500 g_zero)).state.ctxs 1).sp
        = 0x7feff0
    ∧ ((exceptionhandler arm64 1 1 2 (faultState 0xc0000005 0x401500 g_zero)).state.ctxs 1).sp
        ≠ (0x7ff000 + arm64.wordMod - arm64.PtrSize) % arm64.wordMod := by
  refine ⟨⟨by decide, by decide, by decide⟩, by decide, by decide, by decide, by decide⟩

/-- C17, amended: whenever the push is done, the stack pointer becomes
`sp - sys.StackAlign` modulo the word size (which is `sp - PtrSize` where
`StackAlign = PtrSize`), and the only cell of stack memory written is the
one at the new stack pointer. -/
theorem exceptionhandler_push_size (env : Env) (info r gp : Nat) (s : State)
    (h : recoverable env info r gp s)
    (hz : (s.ctxs r).ip ≠ 0) (ha : (s.ctxs r).ip ≠ env.asyncPreempt) :
    ((exceptionhandler env info r gp s).state.ctxs r).sp
        = ((s.ctxs r).sp + (env.wordMod - (env.StackAlign % env.wordMod) % env.wordMod)
            % env.wordMod) % env.wordMod
    ∧ (env.StackAlign = env.PtrSize →
        ((exceptionhandler env info r gp s).state.ctxs r).sp
          = ((s.ctxs r).sp + (env.wordMod - (env.PtrSize % env.wordMod) % env.wordMod)
              % env.wordMod) % env.wordMod)
    ∧ (0 < env.StackAlign → env.StackAlign < env.wordMod →
        env.StackAlign ≤ (s.ctxs r).sp → (s.ctxs r).sp < env.wordMod →
        ((exceptionhandler env info r gp s).state.ctxs r).sp + env.StackAlign = (s.ctxs r).sp)
    ∧ (∀ a, a ≠ ((exceptionhandler env info r gp s).state.ctxs r).sp →
        (exceptionhandler env info r gp s).state.mem a = s.mem a) := by
  have hctx := exceptionhandler_recoverable_ctx env info r gp s h
  have hmem := exceptionhandler_recoverable_mem env info r gp s h
  rw [if_pos ⟨hz, ha⟩] at hctx hmem
  rw [hctx, hmem]
  refine ⟨rfl, fun e => ?_, fun h0 h1 h2 h3 => pushedSp_add env (s.ctxs r).sp h0 h1 h2 h3,
    fun a hne => Function.update_noteq hne _ _⟩
  rw [← e]
  rfl

/-- C17 amended, at a concrete input: on windows/amd64, where `StackAlign` is
`PtrSize`, the push lowers `sp` by 8. -/
theorem exceptionhandler_push_size_witness :
    ((exceptionhandler amd64 1 1 2 (faultState 0xc0000005 0x401500 g_zero)).state.ctxs 1).sp + 8
      = 0x7ff000 :=
  (exceptionhandler_push_size amd64 1 1 2 (faultState 0xc0000005 0x401500 g_zero)
    ⟨by decide, by decide, by decide⟩ (by decide) (by decide)).2.2.1 (by decide)
    (by norm_num [amd64, Env.wordMod]) (by decide)
    (by norm_num [amd64, Env.wordMod, faultState, mkState, mkCtx, Context.sp])

/-! ### The crash artifact -/

/-- C18, the code at the failing input: with `docrash = true` the crash
reporter calls `crash`, whose body is empty, and the process ends exactly as
with `docrash = false`: same exit status, same output, same state. -/
theorem winthrow_docrash_no_effect :
    (amd64crash.gotraceback (faultState 0xc00000fd 0x401500 g_zero)).2.2 = true
    ∧ (amd64.gotraceback (faultState 0xc00000fd 0x401500 g_zero)).2.2 = false
    ∧ (winthrow amd64crash 1 1 2 (faultState 0xc00000fd 0x401500 g_zero)).status = some 2
    ∧ (winthrow amd64 1 1 2 (faultState 0xc00000fd 0x401500 g_zero)).status = some 2
    ∧ (winthrow amd64crash 1 1 2 (faultState 0xc00000fd 0x401500 g_zero)).state.out
        = (winthrow amd64 1 1 2 (faultState 0xc00000fd 0x401500 g_zero)).state.out
    ∧ winthrow amd64crash 1 1 2 (faultState 0xc00000fd 0x401500 g_zero)
        = winthrow amd64 1 1 2 (faultState 0xc00000fd 0x401500 g_zero) := by
  refine ⟨by decide, by decide, by decide, by decide, by decide, rfl⟩

/-! ### The bad-signal message -/

/-- The loop of `setBadSignalMsg` writes only the buffer and the length, and
what it writes depends only on them. -/
theorem setBadSignalMsgLoop_eq (cs : List Char) (i : Nat) (s : State) :
    setBadSignalMsgLoop cs i s
      = (bufferLoop cs i s.badsignalmsg s.badsignallen).map
          fun p => { s with badsignalmsg := p.1, badsignallen := p.2 } := by
  induction cs generalizing i s with
  | nil => rfl
  | cons c cs ih =>
    unfold setBadSignalMsgLoop bufferLoop
    by_cases h : i < s.badsignalmsg.length
    · rw [if_pos h, if_pos h, ih]
    · rw [if_neg h, if_neg h]
      rfl

set_option maxRecDepth 100000 in
/-- The loop on a zeroed buffer of 100 bytes: all stores are in bounds. -/
theorem bufferLoop_first :
    bufferLoop badSignalText.toList 0 (List.replicate 100 0) 0
      = some (badSignalBytes ++ List.replicate 46 0, 54) := by
  rfl

set_option maxRecDepth 100000 in
/-- The loop run again on its own result. -/
theorem bufferLoop_second :
    bufferLoop badSignalText.toList 0 (badSignalBytes ++ List.replicate 46 0) 54
      = some (badSignalBytes ++ List.replicate 46 0, 108) := by
  rfl

/-- C20: run once on the zero-initialised buffer, `setBadSignalMsg` makes no
store outside the 100 bytes (it ends normally), leaves `badsignallen` equal to
the byte length 54 of the message, the first 54 bytes equal to the message and
the other 46 still zero, and touches nothing else; run a second time it leaves
the bytes as they are and makes `badsignallen` 108, more than the buffer
holds. -/
theorem setBadSignalMsg_once (s : State)
    (hb : s.badsignalmsg = List.replicate 100 0) (hl : s.badsignallen = 0) :
    badSignalText.utf8ByteSize = 54
    ∧ badSignalBytes.length = 54
    ∧ setBadSignalMsg s
        = some { s with badsignalmsg := badSignalBytes ++ List.replicate 46 0,
                        badsignallen := 54 }
    ∧ (badSignalBytes ++ List.replicate 46 0).length = 100
    ∧ (badSignalBytes ++ List.replicate 46 0).take 54 = badSignalBytes
    ∧ (badSignalBytes ++ List.replicate 46 0).drop 54 = List.replicate 46 0
    ∧ setBadSignalMsg { s with badsignalmsg := badSignalBytes ++ List.replicate 46 0,
                               badsignallen := 54 }
        = some { s with badsignalmsg := badSignalBytes ++ List.replicate 46 0,
                        badsignallen := 108 }
    ∧ (100 : Int) < 108 := by
  refine ⟨by decide, by decide, ?_, by decide, by decide, by decide, ?_, by decide⟩
  · unfold setBadSignalMsg
    rw [setBadSignalMsgLoop_eq, hb, hl, bufferLoop_first]
    rfl
  · unfold setBadSignalMsg
    rw [setBadSignalMsgLoop_eq]
    show (bufferLoop badSignalText.toList 0 (badSignalBytes ++ List.replicate 46 0) 54).map _ = _
    rw [bufferLoop_second]
    rfl

/-- C20 at a concrete input: the length after the first call on a fresh
process state. -/
theorem setBadSignalMsg_once_witness :
    (setBadSignalMsg (faultState 0 0 g_zero)).map (fun s => s.badsignallen) = some 54 := by
  rw [(setBadSignalMsg_once (faultState 0 0 g_zero) rfl rfl).2.2.1]
  rfl

end SignalWindows
